import Mathlib

/-!
# StringDType descriptor (`numpy/_core/src/multiarray/stringdtype/dtype.c`)

A shallow embedding of the descriptor code of the variable-width string dtype:
construction and NA classification, sentinel equality, element access
(`setitem` / `getitem`), the null-aware comparator and the searches built on it
(`argmax` / `argmin`), descriptor equality and promotion, the lifecycle of the
arena (`finalize_descr`, `dealloc`), and the teardown and copy helpers
(`clear_loop`, `free_and_copy`, `load_new_string`).

Conventions of the embedding

* C `int` results are `Int`; a C pointer that may be `NULL` is an `Option`.
* A Python object is its address; everything the C code observes about an
  object goes through the interpreter interface `PyRuntime`, one field per
  C-API call used by the file.
* The string arena (`static_string.c`) is not part of this file's source; its
  operations are modelled from the specification and marked as such.
* Construction, element access and comparison also return the list of
  `Event`s they performed, in program order.
-/

namespace StringDType

/-! ## Data model -/

/-- UTF-8 payload of a string: the `buf` / `size` pair of `npy_static_string`. -/
abbrev Bytes := List UInt8

/-- A Python object reference (`PyObject *`, non-`NULL`), identified by its address. -/
structure PyObject where
  addr : Nat
  deriving DecidableEq, Repr

/-- Exceptions this file sets, by the call that sets them. -/
inductive PyErr where
  /-- Set by `PyErr_SetString(PyExc_MemoryError, msg)` or `npy_gil_error(PyExc_MemoryError, msg)`. -/
  | MemoryError (msg : String)
  /-- Set by `PyErr_SetString(PyExc_ValueError, msg)` or `npy_gil_error(PyExc_ValueError, msg)`. -/
  | ValueError (msg : String)
  /-- Set by `PyErr_NoMemory()`. -/
  | NoMemory
  /-- An exception left set by a failing interpreter call (or pending on entry). -/
  | propagated
  deriving DecidableEq, Repr

/-- Observable actions, recorded in program order. -/
inductive Event where
  | acquire_allocator (allocator : Nat)
  | release_allocator (allocator : Nat)
  | na_eq_cmp
  | PyObject_Str
  | NpyString_load
  | NpyString_pack_null
  | NpyString_pack
  | NpyString_cmp
  | tp_new
  | new_allocator (allocator : Nat)
  | free_allocator (allocator : Nat)
  | NpyString_free
  deriving DecidableEq, Repr

/-- Contents of one storage slot (`npy_packed_static_string`). `corrupt` stands
for a record that the arena cannot decode. -/
inductive npy_packed_static_string where
  | null
  | str (b : Bytes)
  | corrupt
  deriving DecidableEq, Repr

/-- The interpreter and allocation interface used by `dtype.c`, as it stands at
the moment of one call. Each field is the outcome of one external call; a `none`
is that call's failure return. The heap is part of it: which arenas exist, and
the arena the allocator would create next, which is none of them. -/
structure PyRuntime where
  /-- The test `Py_TYPE(o) == &PyUnicode_Type`. -/
  is_exact_unicode : PyObject → Bool
  /-- The test `PyUnicode_Check(o)` (exact type or a subtype). -/
  PyUnicode_Check : PyObject → Bool
  /-- The test `PyFloat_Check(o)`. -/
  PyFloat_Check : PyObject → Bool
  /-- The call `PyFloat_AsDouble(o)` for an object passing `PyFloat_Check`: the IEEE-754
  binary64 bit pattern of the stored value (the call cannot fail there). -/
  PyFloat_AsDouble : PyObject → Nat
  /-- Whether `PyErr_Occurred() != NULL` on entry. -/
  PyErr_Occurred : Bool
  /-- The call `PyObject_RichCompareBool(a, b, Py_EQ)`: `none` is `-1`. -/
  PyObject_RichCompareBool_EQ : PyObject → PyObject → Option Bool
  /-- The call `PyObject_RichCompare(o, o, Py_NE)` followed by `PyObject_IsTrue`: `none`
  when the comparison itself fails, `some none` when the truth test raises. -/
  ne_self : PyObject → Option (Option Bool)
  /-- The call `PyObject_Str(o)`. -/
  PyObject_Str : PyObject → Option PyObject
  /-- The call `PyUnicode_AsUTF8AndSize(o, &size)`. -/
  PyUnicode_AsUTF8AndSize : PyObject → Option Bytes
  /-- The empty-string singleton returned for a zero-length request. -/
  unicode_empty : PyObject
  /-- UTF-8 decoding into a new string object, for a non-empty buffer. -/
  unicode_decode : Bytes → Option PyObject
  /-- Whether `PyArrayDescr_Type.tp_new(...)` returned non-`NULL`. -/
  tp_new_ok : Bool
  /-- The call `NpyString_new_allocator(...)`: the new arena, or `NULL`. -/
  NpyString_new_allocator : Option Nat
  /-- Whether the arena with this id exists when the call is made. -/
  arena_in_use : Nat → Bool
  /-- The allocator's contract: the arena it creates is not one that already
  exists. -/
  new_allocator_fresh : ∀ a, NpyString_new_allocator = some a → arena_in_use a = false
  /-- Whether `PyMem_RawMalloc(size)` returned non-`NULL`. -/
  PyMem_RawMalloc_ok : Nat → Bool
  /-- Whether a string of the given size can be stored in a slot: always for a
  size that is stored inline, and for a larger size when the arena can allocate
  it. -/
  arena_alloc_ok : Nat → Bool
  /-- What a slot holds once the arena has released its string. The specification
  does not say, so it is left to the arena. -/
  released_slot : npy_packed_static_string → npy_packed_static_string

/-- The call `PyUnicode_FromStringAndSize(buf, size)`: the empty singleton for `size == 0`
(this is why the call on `""` "cannot fail"), a decoded object otherwise. -/
def PyUnicode_FromStringAndSize (rt : PyRuntime) (b : Bytes) : Option PyObject :=
  if b.length = 0 then some rt.unicode_empty else rt.unicode_decode b

/-- The macro `npy_isnan` on a binary64 bit pattern: exponent all ones, mantissa non-zero. -/
def npy_isnan (bits : Nat) : Bool :=
  (bits / 2 ^ 52) % 2 ^ 11 == 2047 && bits % 2 ^ 52 != 0

/-- The binary64 bit pattern of `-1.0`. -/
def neg_one_bits : Nat := 0xBFF0000000000000

/-- The descriptor object `PyArray_StringDTypeObject`. -/
structure PyArray_StringDTypeObject where
  na_object : Option PyObject
  coerce : Int
  has_nan_na : Bool
  has_string_na : Bool
  /-- Ownership tag: `0` independent, `1` owned by an array, `2` view. -/
  array_owned : Nat
  default_string : Bytes
  na_name : Bytes
  allocator : Nat
  deriving DecidableEq, Repr

/-! ## Arena operations (not in this source file) -/

/-- Modelled from the spec: `NpyString_load` (arena `unpack`) is missing from the
sources. It "returns a null indicator or a valid pointer/length"; a malformed
record is the `CorruptStorage` failure. Result: `1` null, `0` string, `-1` failure. -/
def NpyString_load (ps : npy_packed_static_string) : Int × Bytes :=
  match ps with
  | .null => (1, [])
  | .str b => (0, b)
  | .corrupt => (-1, [])

/-- Modelled from the spec: `NpyString_pack_null` is missing from the sources. It
writes the null marker into the slot; nothing is allocated. A malformed previous
record is reported as failure and left as it was. -/
def NpyString_pack_null (ps : npy_packed_static_string) : Int × npy_packed_static_string :=
  match ps with
  | .corrupt => (-1, .corrupt)
  | _ => (0, .null)

/-- Modelled from the spec: `NpyString_pack` (arena `pack`) is missing from the
sources. On allocation failure the slot is "left as its prior value", otherwise
it is "fully written". -/
def NpyString_pack (rt : PyRuntime) (ps : npy_packed_static_string) (b : Bytes) :
    Int × npy_packed_static_string :=
  match ps with
  | .corrupt => (-1, .corrupt)
  | _ => if rt.arena_alloc_ok b.length then (0, .str b) else (-1, ps)

/-- Modelled from the spec: `NpyString_free` (arena `free`) is missing from the
sources. It releases the string of the slot, which then holds what the arena
leaves in a released slot; a malformed record cannot be released, is reported as
failure and left as it was. -/
def NpyString_free (rt : PyRuntime) (ps : npy_packed_static_string) :
    Int × npy_packed_static_string :=
  match ps with
  | .corrupt => (-1, .corrupt)
  | _ => (0, rt.released_slot ps)

/-- Modelled from the spec: `NpyString_dup` (arena `duplicate`) is missing from
the sources. It copies the value of `in` into `out`, "producing an independent
handle": a null marker is copied as a null marker, a string is packed anew. On
failure `out` is "left as its prior value". -/
def NpyString_dup (rt : PyRuntime) (in_ out : npy_packed_static_string) :
    Int × npy_packed_static_string :=
  match in_ with
  | .corrupt => (-1, out)
  | .null => NpyString_pack_null out
  | .str b => NpyString_pack rt out b

/-- Modelled from the spec: `NpyString_newemptysize` (arena `allocateEmpty`) is
missing from the sources. It makes `out` a string of `num_bytes` zero bytes; on
allocation failure `out` is "left as its prior value". -/
def NpyString_newemptysize (rt : PyRuntime) (num_bytes : Nat)
    (out : npy_packed_static_string) : Int × npy_packed_static_string :=
  match out with
  | .corrupt => (-1, .corrupt)
  | _ =>
    if rt.arena_alloc_ok num_bytes then (0, .str (List.replicate num_bytes 0))
    else (-1, out)

/-- Modelled from the spec: `NpyString_cmp` is missing from the sources. Two
non-null strings are compared "as ordered sequences of Unicode code points",
returning `-1`, `0` or `1`; on UTF-8 this is the bytewise lexicographic order. -/
def NpyString_cmp : Bytes → Bytes → Int
  | [], [] => 0
  | [], _ :: _ => -1
  | _ :: _, [] => 1
  | x :: xs, y :: ys =>
    if x < y then -1 else if y < x then 1 else NpyString_cmp xs ys

/-! ## Comparator -/

/-- Result of a comparison: the C return value, the exception set (if any) and
the actions performed. -/
structure CompareResult where
  ret : Int
  err : Option PyErr
  trace : List Event
  deriving DecidableEq, Repr

/-- The function `_compare(a, b, descr_a, descr_b)`: the caller already holds the lock. Only
`descr_a` is consulted, as in the source. -/
def _compare (a b : npy_packed_static_string)
    (descr_a _descr_b : PyArray_StringDTypeObject) : CompareResult :=
  let has_null := descr_a.na_object != none
  let has_string_na := descr_a.has_string_na
  let has_nan_na := descr_a.has_nan_na
  let default_string := descr_a.default_string
  let (a_is_null, s_a) := NpyString_load a
  let (b_is_null, s_b) := NpyString_load b
  let loads := [Event.NpyString_load, Event.NpyString_load]
  if a_is_null = -1 ∨ b_is_null = -1 then
    { ret := 0
      err := some (.MemoryError "Failed to load string in string comparison")
      trace := loads }
  else if a_is_null ≠ 0 ∨ b_is_null ≠ 0 then
    if has_null && !has_string_na then
      if has_nan_na then
        if a_is_null ≠ 0 then
          { ret := 1, err := none, trace := loads }
        else if b_is_null ≠ 0 then
          { ret := -1, err := none, trace := loads }
        else
          { ret := NpyString_cmp s_a s_b, err := none
            trace := loads ++ [Event.NpyString_cmp] }
      else
        { ret := 0
          err := some (.ValueError "Cannot compare null that is not a nan-like value")
          trace := loads }
    else
      let s_a := if a_is_null ≠ 0 then default_string else s_a
      let s_b := if b_is_null ≠ 0 then default_string else s_b
      { ret := NpyString_cmp s_a s_b, err := none
        trace := loads ++ [Event.NpyString_cmp] }
  else
    { ret := NpyString_cmp s_a s_b, err := none
      trace := loads ++ [Event.NpyString_cmp] }

/-- The function `compare(a, b, arr)`: the `PyArray_CompareFunc`; `descr` is `PyArray_DESCR(arr)`. -/
def compare (a b : npy_packed_static_string) (descr : PyArray_StringDTypeObject) :
    CompareResult :=
  let r := _compare a b descr descr
  { r with
    trace := [Event.acquire_allocator descr.allocator] ++ r.trace ++
      [Event.release_allocator descr.allocator] }

/-! ## Sentinel equality and descriptor equality -/

/-- The function `na_eq_cmp(a, b)`: `1` equal, `0` not equal, `-1` error. `a == b` is pointer
equality, `NULL` being `none`. -/
def na_eq_cmp (rt : PyRuntime) (a b : Option PyObject) : Int :=
  if a = b then
    1
  else
    match a, b with
    | some a, some b =>
      let generic : Int :=
        match rt.PyObject_RichCompareBool_EQ a b with
        | none => 0
        | some ret => if ret then 1 else 0
      if rt.PyFloat_Check a && rt.PyFloat_Check b then
        let a_float := rt.PyFloat_AsDouble a
        if a_float = neg_one_bits ∧ rt.PyErr_Occurred = true then
          -1
        else
          let b_float := rt.PyFloat_AsDouble b
          if b_float = neg_one_bits ∧ rt.PyErr_Occurred = true then
            -1
          else if npy_isnan a_float && npy_isnan b_float then
            1
          else
            generic
      else
        generic
    | _, _ => 0

/-- The function `_eq_comparison(scoerce, ocoerce, sna, ona)`: "the logical rules for
determining equality between dtype instances". -/
def _eq_comparison (rt : PyRuntime) (scoerce ocoerce : Int)
    (sna ona : Option PyObject) : Int :=
  if scoerce ≠ ocoerce then 0 else na_eq_cmp rt sna ona

/-! ## Construction -/

/-- Result of constructing a descriptor: the new object or `NULL`, the exception
set on failure (some failure paths set none), and the actions performed. -/
structure NewResult where
  ret : Option PyArray_StringDTypeObject
  err : Option PyErr
  trace : List Event
  deriving DecidableEq, Repr

/-- The `fail:` label of `new_stringdtype_instance`: the allocator is released
only when it was created by this call (`array_owned != 2`). -/
def new_stringdtype_instance_fail (allocator : Option Nat) (array_owned : Nat)
    (err : Option PyErr) (trace : List Event) : NewResult :=
  { ret := none
    err := err
    trace :=
      match allocator with
      | some al => if array_owned ≠ 2 then trace ++ [Event.free_allocator al] else trace
      | none => trace }

/-- Lines 60-94 of `new_stringdtype_instance`: classification of a non-`NULL`
sentinel. Returns `(has_nan_na, has_string_na, default_string)`, or the
exception state of the `goto fail`. -/
def classify_na_object (rt : PyRuntime) (na_object : PyObject) :
    Except (Option PyErr) (Bool × Bool × Bytes) :=
  if rt.PyUnicode_Check na_object then
    match rt.PyUnicode_AsUTF8AndSize na_object with
    | none => .error (some .propagated)
    | some buf =>
      if rt.PyMem_RawMalloc_ok buf.length then .ok (false, true, buf)
      else .error (some .NoMemory)
  else
    match rt.ne_self na_object with
    | none => .error (some .propagated)
    | some is_truthy =>
      match is_truthy with
      | none => .ok (true, false, [])
      | some true => .ok (true, false, [])
      | some false => .ok (false, false, [])

/-- Lines 95-113 of `new_stringdtype_instance`: the sentinel's display name. The
last failure (no memory for the copy) sets no exception. -/
def build_na_name (rt : PyRuntime) (na_object : PyObject) : Except (Option PyErr) Bytes :=
  match rt.PyObject_Str na_object with
  | none => .error (some .propagated)
  | some na_pystr =>
    match rt.PyUnicode_AsUTF8AndSize na_pystr with
    | none => .error (some .propagated)
    | some utf8 =>
      if rt.PyMem_RawMalloc_ok utf8.length then .ok utf8 else .error none

/-- The function `new_stringdtype_instance(na_object, coerce, allocator)`. -/
def new_stringdtype_instance (rt : PyRuntime) (na_object : Option PyObject) (coerce : Int)
    (allocator : Option Nat) : NewResult :=
  if !rt.tp_new_ok then
    { ret := none, err := some .propagated, trace := [Event.tp_new] }
  else
    let created : Option Nat :=
      match allocator with
      | none => rt.NpyString_new_allocator
      | some al => some al
    let array_owned : Nat := if allocator = none then 0 else 2
    let t0 : List Event :=
      match allocator, created with
      | none, some al => [Event.tp_new, Event.new_allocator al]
      | _, _ => [Event.tp_new]
    match created with
    | none =>
      new_stringdtype_instance_fail none array_owned
        (some (.MemoryError "Failed to create string allocator")) t0
    | some al =>
      match na_object with
      | none =>
        { ret := some
            { na_object := none, coerce := coerce, has_nan_na := false
              has_string_na := false, array_owned := 2, default_string := []
              na_name := [], allocator := al }
          err := none, trace := t0 }
      | some na =>
        match classify_na_object rt na with
        | .error e => new_stringdtype_instance_fail (some al) array_owned e t0
        | .ok (has_nan_na, has_string_na, default_string) =>
          match build_na_name rt na with
          | .error e =>
            new_stringdtype_instance_fail (some al) array_owned e
              (t0 ++ [Event.PyObject_Str])
          | .ok na_name =>
            { ret := some
                { na_object := some na, coerce := coerce, has_nan_na := has_nan_na
                  has_string_na := has_string_na, array_owned := 2
                  default_string := default_string, na_name := na_name
                  allocator := al }
              err := none, trace := t0 ++ [Event.PyObject_Str] }

/-- The function `common_instance(dtype1, dtype2)`. -/
def common_instance (rt : PyRuntime) (dtype1 dtype2 : PyArray_StringDTypeObject) :
    NewResult :=
  let eq := _eq_comparison rt dtype1.coerce dtype2.coerce dtype1.na_object
    dtype2.na_object
  if eq ≤ 0 then
    { ret := none
      err := some (.ValueError "Cannot find common instance for unequal dtype instances")
      trace := [] }
  else
    new_stringdtype_instance rt dtype1.na_object dtype1.coerce none

/-! ## Element access -/

/-- Result of `as_pystring`: the string object or `NULL`, with the exception set. -/
structure PyStringResult where
  val : Option PyObject
  err : Option PyErr
  trace : List Event
  deriving DecidableEq, Repr

/-- The function `as_pystring(scalar, coerce)`. -/
def as_pystring (rt : PyRuntime) (scalar : PyObject) (coerce : Int) : PyStringResult :=
  if rt.is_exact_unicode scalar then
    { val := some scalar, err := none, trace := [] }
  else if coerce = 0 then
    { val := none
      err := some (.ValueError
        "StringDType only allows string data when string coercion is disabled.")
      trace := [] }
  else
    match rt.PyObject_Str scalar with
    | none => { val := none, err := some .propagated, trace := [Event.PyObject_Str] }
    | some s => { val := some s, err := none, trace := [Event.PyObject_Str] }

/-- Result of `stringdtype_setitem`: the C return value, the slot afterwards, the
exception set and the actions performed. -/
structure SetResult where
  ret : Int
  slot : npy_packed_static_string
  err : Option PyErr
  trace : List Event
  deriving DecidableEq, Repr

/-- The function `stringdtype_setitem(descr, obj, dataptr)`; `sdata` is the slot at `dataptr`. -/
def stringdtype_setitem (rt : PyRuntime) (descr : PyArray_StringDTypeObject)
    (obj : PyObject) (sdata : npy_packed_static_string) : SetResult :=
  let na_object := descr.na_object
  let is_cmp : Int := if na_object ≠ none then na_eq_cmp rt (some obj) na_object else 0
  let t0 : List Event := if na_object ≠ none then [Event.na_eq_cmp] else []
  if na_object ≠ none ∧ is_cmp = -1 then
    { ret := -1, slot := sdata, err := some .propagated, trace := t0 }
  else
    let t1 := t0 ++ [Event.acquire_allocator descr.allocator]
    let release := [Event.release_allocator descr.allocator]
    if na_object ≠ none ∧ is_cmp ≠ 0 then
      let (r, sdata1) := NpyString_pack_null sdata
      if r < 0 then
        { ret := -1, slot := sdata1
          err := some (.MemoryError
            "Failed to pack null string during StringDType setitem")
          trace := t1 ++ [Event.NpyString_pack_null] ++ release }
      else
        { ret := 0, slot := sdata1, err := none
          trace := t1 ++ [Event.NpyString_pack_null] ++ release }
    else
      let val_obj := as_pystring rt obj descr.coerce
      match val_obj.val with
      | none =>
        { ret := -1, slot := sdata, err := val_obj.err
          trace := t1 ++ val_obj.trace ++ release }
      | some v =>
        match rt.PyUnicode_AsUTF8AndSize v with
        | none =>
          { ret := -1, slot := sdata, err := some .propagated
            trace := t1 ++ val_obj.trace ++ release }
        | some val =>
          let (r, sdata1) := NpyString_pack rt sdata val
          if r < 0 then
            { ret := -1, slot := sdata1
              err := some (.MemoryError
                "Failed to pack string during StringDType setitem")
              trace := t1 ++ val_obj.trace ++ [Event.NpyString_pack] ++ release }
          else
            { ret := 0, slot := sdata1, err := none
              trace := t1 ++ val_obj.trace ++ [Event.NpyString_pack] ++ release }

/-- Result of `stringdtype_getitem`: the returned object or `NULL`, the exception
set and the actions performed. -/
structure GetResult where
  val : Option PyObject
  err : Option PyErr
  trace : List Event
  deriving DecidableEq, Repr

/-- The function `stringdtype_getitem(descr, dataptr)`; `psdata` is the slot at `dataptr`. -/
def stringdtype_getitem (rt : PyRuntime) (descr : PyArray_StringDTypeObject)
    (psdata : npy_packed_static_string) : GetResult :=
  let has_null := descr.na_object != none
  let t0 := [Event.acquire_allocator descr.allocator, Event.NpyString_load]
  let release := [Event.release_allocator descr.allocator]
  let (is_null, sdata) := NpyString_load psdata
  if is_null < 0 then
    { val := none
      err := some (.MemoryError "Failed to load string in StringDType getitem")
      trace := t0 ++ release }
  else if is_null = 1 then
    if has_null then
      { val := descr.na_object, err := none, trace := t0 ++ release }
    else
      { val := PyUnicode_FromStringAndSize rt [], err := none, trace := t0 ++ release }
  else
    match PyUnicode_FromStringAndSize rt sdata with
    | none => { val := none, err := some .propagated, trace := t0 ++ release }
    | some val_obj => { val := some val_obj, err := none, trace := t0 ++ release }

/-! ## Rich comparison of descriptors -/

/-- Comparison operators of `tp_richcompare`. -/
inductive CompareOp where
  | Py_LT | Py_LE | Py_EQ | Py_NE | Py_GT | Py_GE
  deriving DecidableEq, Repr

/-- The right operand of a rich comparison: another `StringDType` instance
(`Py_TYPE(other) == Py_TYPE(self)`) or an object of some other type. -/
inductive RichOperand where
  | stringdtype (d : PyArray_StringDTypeObject)
  | foreign (o : PyObject)
  deriving DecidableEq, Repr

/-- What `tp_richcompare` returns; `NULL` is the error return. -/
inductive RichResult where
  | Py_NotImplemented | Py_True | Py_False | NULL
  deriving DecidableEq, Repr

/-- The function `PyArray_StringDType_richcompare(self, other, op)`. -/
def PyArray_StringDType_richcompare (rt : PyRuntime) (self : PyArray_StringDTypeObject)
    (other : RichOperand) (op : CompareOp) : RichResult :=
  match other with
  | .foreign _ => .Py_NotImplemented
  | .stringdtype sother =>
    if op ≠ .Py_EQ ∧ op ≠ .Py_NE then
      .Py_NotImplemented
    else
      let eq := _eq_comparison rt self.coerce sother.coerce self.na_object
        sother.na_object
      if eq = -1 then
        .NULL
      else if (op = .Py_EQ ∧ eq ≠ 0) ∨ (op = .Py_NE ∧ eq = 0) then
        .Py_True
      else
        .Py_False

/-! ## Teardown and copy helpers -/

/-- Result of `stringdtype_clear_loop`: the C return value, the slots afterwards,
the exception set and the actions performed. -/
structure ClearResult where
  ret : Int
  data : List npy_packed_static_string
  err : Option PyErr
  trace : List Event
  deriving DecidableEq, Repr

/-- The `while (size--)` loop of `stringdtype_clear_loop` over the remaining slots:
each slot is released in turn, and the first failure stops the loop. Returns
whether a release failed, the slots afterwards and the actions performed. -/
def clear_loop_body (rt : PyRuntime) : List npy_packed_static_string →
    Bool × List npy_packed_static_string × List Event
  | [] => (false, [], [])
  | sdata :: rest =>
    let (r, sdata1) := NpyString_free rt sdata
    if r < 0 then
      (true, sdata1 :: rest, [Event.NpyString_free])
    else
      let (failed, rest1, t) := clear_loop_body rt rest
      (failed, sdata1 :: rest1, Event.NpyString_free :: t)

/-- The function `stringdtype_clear_loop(ctx, descr, data, size, stride, auxdata)`.
The argument `data` lists the `size` slots at `data`, `data + stride`, ...; the
pointer to each of them is not `NULL`. -/
def stringdtype_clear_loop (rt : PyRuntime) (sdescr : PyArray_StringDTypeObject)
    (data : List npy_packed_static_string) : ClearResult :=
  let (failed, data1, t) := clear_loop_body rt data
  let trace := [Event.acquire_allocator sdescr.allocator] ++ t ++
    [Event.release_allocator sdescr.allocator]
  if failed then
    { ret := -1, data := data1
      err := some (.MemoryError "String deallocation failed in clear loop")
      trace := trace }
  else
    { ret := 0, data := data1, err := none, trace := trace }

/-- Result of `free_and_copy`: the C return value, the `out` slot afterwards and
the exception set. -/
structure CopyResult where
  ret : Int
  out : npy_packed_static_string
  err : Option PyErr
  deriving DecidableEq, Repr

/-- The function `free_and_copy(in_allocator, out_allocator, in, out, location)`. -/
def free_and_copy (rt : PyRuntime) (in_ out : npy_packed_static_string)
    (location : String) : CopyResult :=
  let (r, out1) := NpyString_free rt out
  if r < 0 then
    { ret := -1, out := out1
      err := some (.MemoryError ("Failed to deallocate string in " ++ location)) }
  else
    let (r2, out2) := NpyString_dup rt in_ out1
    if r2 < 0 then
      { ret := -1, out := out2
        err := some (.MemoryError ("Failed to allocate string in " ++ location)) }
    else
      { ret := 0, out := out2, err := none }

/-- Result of `load_new_string`: the C return value, the `out` slot afterwards,
the unpacked string written to `out_ss`, and the exception set. -/
structure LoadNewResult where
  ret : Int
  out : npy_packed_static_string
  out_ss : Bytes
  err : Option PyErr
  deriving DecidableEq, Repr

/-- The function `load_new_string(out, out_ss, num_bytes, allocator, err_context)`;
`out_ss` starts as the empty unpacked string. -/
def load_new_string (rt : PyRuntime) (out : npy_packed_static_string) (num_bytes : Nat)
    (err_context : String) : LoadNewResult :=
  let (r, out1) := NpyString_free rt out
  if r < 0 then
    { ret := -1, out := out1, out_ss := []
      err := some (.MemoryError ("Failed to deallocate string in " ++ err_context)) }
  else
    let (r2, out2) := NpyString_newemptysize rt num_bytes out1
    if r2 < 0 then
      { ret := -1, out := out2, out_ss := []
        err := some (.MemoryError ("Failed to allocate string in " ++ err_context)) }
    else
      let (is_null, out_ss) := NpyString_load out2
      if is_null = -1 then
        { ret := -1, out := out2, out_ss := out_ss
          err := some (.MemoryError ("Failed to load string in " ++ err_context)) }
      else
        { ret := 0, out := out2, out_ss := out_ss, err := none }

/-! ## Promotion between element kinds -/

/-- A DType class (`PyArray_DTypeMeta`), as far as `common_dtype` reads it. -/
structure PyArray_DTypeMeta where
  type_num : Int
  deriving DecidableEq, Repr

/-- What `common_dtype` returns: a DType class, or `Py_NotImplemented`. -/
inductive CommonDTypeResult where
  | dtype (cls : PyArray_DTypeMeta)
  | Py_NotImplemented
  deriving DecidableEq, Repr

/-- The function `common_dtype(cls, other)`. The type number `NPY_UNICODE` of the
fixed-width unicode kind is defined in a header outside this file and is taken
as a parameter. -/
def common_dtype (NPY_UNICODE : Int) (cls other : PyArray_DTypeMeta) : CommonDTypeResult :=
  if other.type_num = NPY_UNICODE then .dtype cls else .Py_NotImplemented

/-! ## Lifecycle -/

/-- Result of `stringdtype_finalize_descr`. Descriptors are values here, so the
identity of the returned object is recorded explicitly. -/
structure FinalizeResult where
  /-- The argument after the call (its `array_owned` may have been written). -/
  dtype : PyArray_StringDTypeObject
  /-- The returned descriptor; `none` when the constructor returned `NULL`. -/
  ret : Option PyArray_StringDTypeObject
  /-- Whether the returned pointer is the argument itself. -/
  returns_argument : Bool
  /-- Whether the call read `ret->array_owned` through a `NULL` `ret`. -/
  null_dereferenced : Bool
  err : Option PyErr
  trace : List Event
  deriving DecidableEq, Repr

/-- The function `stringdtype_finalize_descr(dtype)`. -/
def stringdtype_finalize_descr (rt : PyRuntime) (sdtype : PyArray_StringDTypeObject) :
    FinalizeResult :=
  if sdtype.array_owned = 0 then
    let dtype := { sdtype with array_owned := 1 }
    { dtype := dtype, ret := some dtype, returns_argument := true
      null_dereferenced := false, err := none, trace := [] }
  else
    let r := new_stringdtype_instance rt sdtype.na_object sdtype.coerce
      (some sdtype.allocator)
    match r.ret with
    | none =>
      { dtype := sdtype, ret := none, returns_argument := false
        null_dereferenced := true, err := r.err, trace := r.trace }
    | some ret =>
      let ret := if ret.array_owned = 0 then { ret with array_owned := 1 } else ret
      { dtype := sdtype, ret := some ret, returns_argument := false
        null_dereferenced := false, err := r.err, trace := r.trace }

/-- The function `stringdtype_dealloc(self)` on a constructed descriptor (its
`allocator` is not `NULL`): the arena is released unless the descriptor is
tagged as a view. Only the arena release is recorded. -/
def stringdtype_dealloc (self : PyArray_StringDTypeObject) : List Event :=
  if self.array_owned ≠ 2 then [Event.free_allocator self.allocator] else []

/-! ## Search -/

/-- The function `argmax(data, n, max_ind, arr)`: the value left in `*max_ind`
(the C return value is always `0`, exceptions set by `compare` are not looked
at). `data i` is the slot at `data + i * elsize`. The loop counter is a C `int`,
so the embedding is exact for `n` up to `INT_MAX`. -/
def argmax (descr : PyArray_StringDTypeObject) (data : Nat → npy_packed_static_string)
    (n : Nat) : Nat :=
  (List.range' 1 (n - 1)).foldl
    (fun max_ind i => if (compare (data i) (data max_ind) descr).ret > 0 then i else max_ind)
    0

/-- The function `argmin(data, n, min_ind, arr)`: the value left in `*min_ind`,
with the conventions of `argmax`. -/
def argmin (descr : PyArray_StringDTypeObject) (data : Nat → npy_packed_static_string)
    (n : Nat) : Nat :=
  (List.range' 1 (n - 1)).foldl
    (fun min_ind i => if (compare (data i) (data min_ind) descr).ret < 0 then i else min_ind)
    0

/-! ## Specification-level notions

Definitions that follow the words of the specification, to state what the code
is compared against. -/

/-- Sentinel equality as the specification words it: identical references are
equal; else two floats are equal if both are NaN; else the generic equality
test decides, a failing test counting as not equal. An absent value is equal
only to an absent value. -/
def na_eq_spec (rt : PyRuntime) (a b : Option PyObject) : Bool :=
  if a = b then true
  else
    match a, b with
    | some x, some y =>
      if rt.PyFloat_Check x && rt.PyFloat_Check y &&
          npy_isnan (rt.PyFloat_AsDouble x) && npy_isnan (rt.PyFloat_AsDouble y) then
        true
      else
        match rt.PyObject_RichCompareBool_EQ x y with
        | some true => true
        | _ => false
    | _, _ => false

/-- The value a slot stands for when slots are ordered: its text, or the null
value. -/
inductive SortKey where
  | text (b : Bytes)
  | null
  deriving DecidableEq, Repr

/-- The value of a slot under a descriptor: a string is its text; a null marker
is the `default_string` text when the descriptor has no sentinel or a string
sentinel, and the null value otherwise. -/
def slot_key (d : PyArray_StringDTypeObject) : npy_packed_static_string → SortKey
  | .str b => .text b
  | .null => if d.na_object != none && !d.has_string_na then .null else .text d.default_string
  | .corrupt => .text []

/-- Three-way comparison of values: texts by `NpyString_cmp`, the null value
equal to itself and greater than every text. -/
def key_cmp : SortKey → SortKey → Int
  | .text a, .text b => NpyString_cmp a b
  | .text _, .null => -1
  | .null, .text _ => 1
  | .null, .null => 0

/-- The lock actions of a trace, in order: what is left when every other action is
dropped. -/
def lock_events (t : List Event) : List Event :=
  t.filter fun e =>
    match e with
    | .acquire_allocator _ => true
    | .release_allocator _ => true
    | _ => false

/-! ## A concrete interpreter state

A small heap used to evaluate the definitions on concrete inputs: a few `str`
objects, two floats, `None`, and an object whose `!=` result has no truth value. -/

/-- The UTF-8 text of the `str` objects of the example heap, by address:
`""`, `"NA"`, `"abc"`, `"None"`, `"3.5"`, `"nan"`, `"<NA>"`, and fresh copies of
`"abc"`, `"NA"` and `"3.5"`. -/
def demo_text (o : PyObject) : Option Bytes :=
  match o.addr with
  | 0 => some []
  | 10 => some [78, 65]
  | 11 => some [97, 98, 99]
  | 40 => some [78, 111, 110, 101]
  | 41 => some [51, 46, 53]
  | 42 => some [110, 97, 110]
  | 43 => some [60, 78, 65, 62]
  | 50 => some [97, 98, 99]
  | 51 => some [78, 65]
  | 52 => some [51, 46, 53]
  | _ => none

/-- The example heap: `20` and `22` are two `float('nan')` objects, `21` is `3.5`,
`30` is `None`, `31` is a `pandas.NA`-like singleton; allocation always succeeds.
Arenas `5` and `7` exist, the next arena to be created is `1`, and a released slot
reads as the empty string. -/
def demo_rt : PyRuntime where
  is_exact_unicode o := (demo_text o).isSome
  PyUnicode_Check o := (demo_text o).isSome
  PyFloat_Check o := o.addr == 20 || o.addr == 21 || o.addr == 22
  PyFloat_AsDouble o := if o.addr = 21 then 0x400C000000000000 else 0x7FF8000000000000
  PyErr_Occurred := false
  PyObject_RichCompareBool_EQ a b :=
    if a = b then some true
    else if a.addr = 31 ∨ b.addr = 31 then none
    else
      match demo_text a, demo_text b with
      | some x, some y => some (x == y)
      | _, _ => some false
  ne_self o := if o.addr = 20 ∨ o.addr = 22 then some (some true)
    else if o.addr = 31 then some none
    else some (some false)
  PyObject_Str o :=
    if (demo_text o).isSome then some o
    else if o.addr = 20 ∨ o.addr = 22 then some ⟨42⟩
    else if o.addr = 21 then some ⟨41⟩
    else if o.addr = 30 then some ⟨40⟩
    else if o.addr = 31 then some ⟨43⟩
    else none
  PyUnicode_AsUTF8AndSize o := demo_text o
  unicode_empty := ⟨0⟩
  unicode_decode b :=
    if b = [97, 98, 99] then some ⟨50⟩
    else if b = [78, 65] then some ⟨51⟩
    else if b = [51, 46, 53] then some ⟨52⟩
    else none
  tp_new_ok := true
  NpyString_new_allocator := some 1
  arena_in_use a := a == 5 || a == 7
  new_allocator_fresh := by intro a h; cases h; rfl
  PyMem_RawMalloc_ok _ := true
  arena_alloc_ok _ := true
  released_slot _ := .str []

/-- The descriptor `StringDType(na_object=float('nan'))` on the example heap. -/
def nan_descr : PyArray_StringDTypeObject :=
  { na_object := some ⟨20⟩, coerce := 1, has_nan_na := true, has_string_na := false
    array_owned := 2, default_string := [], na_name := [110, 97, 110], allocator := 1 }

/-- The descriptor `StringDType(na_object=None)` on the example heap. -/
def none_descr : PyArray_StringDTypeObject :=
  { na_object := some ⟨30⟩, coerce := 1, has_nan_na := false, has_string_na := false
    array_owned := 2, default_string := [], na_name := [78, 111, 110, 101]
    allocator := 1 }

/-- The descriptor `StringDType(na_object="NA")` on the example heap. -/
def NA_descr : PyArray_StringDTypeObject :=
  { na_object := some ⟨10⟩, coerce := 1, has_nan_na := false, has_string_na := true
    array_owned := 2, default_string := [78, 65], na_name := [78, 65], allocator := 1 }

/-- The descriptor `StringDType(coerce=False)` on the example heap. -/
def strict_descr : PyArray_StringDTypeObject :=
  { na_object := none, coerce := 0, has_nan_na := false, has_string_na := false
    array_owned := 2, default_string := [], na_name := [], allocator := 1 }

/-- The descriptor `StringDType()` on the example heap: no sentinel, coercion on. -/
def plain_descr : PyArray_StringDTypeObject := { strict_descr with coerce := 1 }

/-- The example heap when the arena is exhausted: a string of up to 15 bytes is
stored inline, a longer one cannot be allocated. -/
def demo_rt_arena_full : PyRuntime :=
  { demo_rt with arena_alloc_ok := fun n => decide (n ≤ 15) }

/-- The example heap after arena `1` has been created: arenas `1`, `5` and `7`
exist and the next arena to be created is `2`. -/
def demo_rt_later : PyRuntime :=
  { demo_rt with
    NpyString_new_allocator := some 2
    arena_in_use := fun a => a == 1 || a == 5 || a == 7
    new_allocator_fresh := by intro a h; cases h; rfl }

/-- A text of 20 bytes, too long to be stored inline: the letters `a` to `t`. -/
def long_text_a : Bytes :=
  [97, 98, 99, 100, 101, 102, 103, 104, 105, 106, 107, 108, 109, 110, 111, 112, 113, 114,
    115, 116]

/-- Another text of 20 bytes: the letters `A` to `T`. -/
def long_text_b : Bytes :=
  [65, 66, 67, 68, 69, 70, 71, 72, 73, 74, 75, 76, 77, 78, 79, 80, 81, 82, 83, 84]

/-- The descriptor `StringDType(na_object="NA")` in the state "independent": fresh
and not yet bound to an array. -/
def independent_descr : PyArray_StringDTypeObject := { NA_descr with array_owned := 0 }

/-- The descriptor `StringDType(na_object="NA")` in the state "owned by an array". -/
def owned_descr : PyArray_StringDTypeObject := { NA_descr with array_owned := 1 }

/-- A run of slots that all hold the null marker. -/
def all_null_run : Nat → npy_packed_static_string := fun _ => .null

/-- The run `"b"`, null, `"a"`, null, then `"c"` from index 4 on. -/
def mixed_run : Nat → npy_packed_static_string
  | 0 => .str [98]
  | 1 => .null
  | 2 => .str [97]
  | 3 => .null
  | _ => .str [99]

/-! ## Basic facts -/

/-- The example descriptors are what the constructor returns on the example heap. -/
theorem demo_descriptors_constructed :
    (new_stringdtype_instance demo_rt (some ⟨20⟩) 1 none).ret = some nan_descr ∧
    (new_stringdtype_instance demo_rt (some ⟨30⟩) 1 none).ret = some none_descr ∧
    (new_stringdtype_instance demo_rt (some ⟨10⟩) 1 none).ret = some NA_descr ∧
    (new_stringdtype_instance demo_rt none 0 none).ret = some strict_descr := by
  decide

/-- A string compares equal to itself. -/
theorem NpyString_cmp_self (s : Bytes) : NpyString_cmp s s = 0 := by
  induction s with
  | nil => rfl
  | cons x xs ih => simp [NpyString_cmp, ih]

/-- The sentinel-equality test returns `1`, `0` or `-1`. -/
theorem na_eq_cmp_range (rt : PyRuntime) (a b : Option PyObject) :
    na_eq_cmp rt a b = 1 ∨ na_eq_cmp rt a b = 0 ∨ na_eq_cmp rt a b = -1 := by
  unfold na_eq_cmp
  split
  · exact Or.inl rfl
  · split
    · dsimp only
      have hg : ∀ x : Option Bool,
          (match x with
            | none => (0 : Int)
            | some ret => if ret then 1 else 0) = 1 ∨
          (match x with
            | none => (0 : Int)
            | some ret => if ret then 1 else 0) = 0 ∨
          (match x with
            | none => (0 : Int)
            | some ret => if ret then 1 else 0) = -1 := by
        intro x
        rcases x with _ | (_ | _) <;> simp
      split
      · split
        · exact Or.inr (Or.inr rfl)
        · split
          · exact Or.inr (Or.inr rfl)
          · split
            · exact Or.inl rfl
            · exact hg _
      · exact hg _
    · exact Or.inr (Or.inl rfl)

/-- A reference is sentinel-equal to itself, `NULL` included. -/
theorem na_eq_cmp_self (rt : PyRuntime) (a : Option PyObject) : na_eq_cmp rt a a = 1 := by
  simp [na_eq_cmp]

/-- Descriptor equality returns `1`, `0` or `-1`. -/
theorem _eq_comparison_range (rt : PyRuntime) (sc oc : Int) (sna ona : Option PyObject) :
    _eq_comparison rt sc oc sna ona = 1 ∨ _eq_comparison rt sc oc sna ona = 0 ∨
    _eq_comparison rt sc oc sna ona = -1 := by
  unfold _eq_comparison
  split
  · exact Or.inr (Or.inl rfl)
  · exact na_eq_cmp_range rt sna ona

/-- A constructed descriptor carries the sentinel and coercion flag it was given. -/
theorem new_stringdtype_instance_fields (rt : PyRuntime) (na_object : Option PyObject)
    (coerce : Int) (allocator : Option Nat) (r : PyArray_StringDTypeObject)
    (h : (new_stringdtype_instance rt na_object coerce allocator).ret = some r) :
    r.na_object = na_object ∧ r.coerce = coerce := by
  unfold new_stringdtype_instance at h
  split at h
  · simp at h
  · dsimp only at h
    split at h
    · simp [new_stringdtype_instance_fail] at h
    · split at h
      · simp at h; subst h; exact ⟨rfl, rfl⟩
      · split at h
        · simp [new_stringdtype_instance_fail] at h
        · split at h
          · simp [new_stringdtype_instance_fail] at h
          · simp at h; subst h; exact ⟨rfl, rfl⟩

/-! ## Comparator -/

/-- C1. With a NaN-like sentinel (`na_object` set, `has_nan_na`, hence not
`has_string_na`), for every non-null string `x`: comparing null with `x` returns
`+1`, comparing `x` with null returns `-1`, and no exception is set; this holds
for `_compare` (whatever the second descriptor) and for `compare`. -/
theorem compare_nan_like_null_vs_string (d d2 : PyArray_StringDTypeObject) (x : Bytes)
    (hnull : d.na_object ≠ none) (hnan : d.has_nan_na = true)
    (hstr : d.has_string_na = false) :
    (_compare .null (.str x) d d2).ret = 1 ∧ (_compare .null (.str x) d d2).err = none ∧
    (_compare (.str x) .null d d2).ret = -1 ∧ (_compare (.str x) .null d d2).err = none ∧
    (compare .null (.str x) d).ret = 1 ∧ (compare .null (.str x) d).err = none ∧
    (compare (.str x) .null d).ret = -1 ∧ (compare (.str x) .null d).err = none := by
  simp [compare, _compare, NpyString_load, hnull, hnan, hstr]

/-- Witness for C1: `StringDType(na_object=nan)` and the string `"abc"`. -/
theorem compare_nan_like_null_vs_string_witness :
    (compare .null (.str [97, 98, 99]) nan_descr).ret = 1 ∧
    (compare (.str [97, 98, 99]) .null nan_descr).ret = -1 :=
  have h := compare_nan_like_null_vs_string nan_descr nan_descr [97, 98, 99]
    (by decide) (by decide) (by decide)
  ⟨h.2.2.2.2.1, h.2.2.2.2.2.2.1⟩

/-- C2 fails as stated: for `StringDType(na_object=nan)`, as built by the
constructor, comparing two null slots returns `+1`, not `0`. -/
theorem compare_nan_like_null_null_counterexample :
    (new_stringdtype_instance demo_rt (some ⟨20⟩) 1 none).ret = some nan_descr ∧
    nan_descr.na_object ≠ none ∧ nan_descr.has_nan_na = true ∧
    (compare .null .null nan_descr).ret = 1 ∧
    (compare .null .null nan_descr).ret ≠ 0 := by
  decide

/-- C2, amended. With a NaN-like sentinel (`na_object` set, `has_nan_na`, not
`has_string_na`), comparing two null slots returns `+1` with no exception set and
without comparing text: the null test on the first operand decides. -/
theorem compare_nan_like_null_null (d d2 : PyArray_StringDTypeObject)
    (hnull : d.na_object ≠ none) (hnan : d.has_nan_na = true)
    (hstr : d.has_string_na = false) :
    (_compare .null .null d d2).ret = 1 ∧ (_compare .null .null d d2).err = none ∧
    (compare .null .null d).ret = 1 ∧ (compare .null .null d).err = none ∧
    Event.NpyString_cmp ∉ (compare .null .null d).trace := by
  simp [compare, _compare, NpyString_load, hnull, hnan, hstr]

/-- Witness for the amended C2: `StringDType(na_object=nan)`. -/
theorem compare_nan_like_null_null_witness :
    (compare .null .null nan_descr).ret = 1 ∧ (compare .null .null nan_descr).err = none :=
  have h := compare_nan_like_null_null nan_descr nan_descr (by decide) (by decide)
    (by decide)
  ⟨h.2.2.1, h.2.2.2.1⟩

/-- C3. With a sentinel that is neither NaN-like nor a string, comparing null with
any slot value `x` (null or a string) sets the exception "Cannot compare null that
is not a nan-like value" and returns without comparing text (the C return value
is `0`), for `_compare` and for `compare`. -/
theorem compare_unordered_null_raises (d d2 : PyArray_StringDTypeObject)
    (x : npy_packed_static_string) (hx : x ≠ .corrupt)
    (hnull : d.na_object ≠ none) (hnan : d.has_nan_na = false)
    (hstr : d.has_string_na = false) :
    (_compare .null x d d2).err =
      some (.ValueError "Cannot compare null that is not a nan-like value") ∧
    (compare .null x d).err =
      some (.ValueError "Cannot compare null that is not a nan-like value") ∧
    (compare .null x d).ret = 0 ∧
    Event.NpyString_cmp ∉ (compare .null x d).trace := by
  cases x with
  | corrupt => exact absurd rfl hx
  | null => simp [compare, _compare, NpyString_load, hnull, hnan, hstr]
  | str b => simp [compare, _compare, NpyString_load, hnull, hnan, hstr]

/-- Witness for C3: `StringDType(na_object=None)`, null against `"abc"`. -/
theorem compare_unordered_null_raises_witness :
    (compare .null (.str [97, 98, 99]) none_descr).err =
      some (.ValueError "Cannot compare null that is not a nan-like value") :=
  (compare_unordered_null_raises none_descr none_descr (.str [97, 98, 99])
    (by decide) (by decide) (by decide) (by decide)).2.1

/-- C4. When the descriptor has no sentinel or a string sentinel, a null side is
replaced by `default_string` and the comparison is the text comparison: for every
non-null `x`, null against `x` is `NpyString_cmp default_string x`, `x` against
null is `NpyString_cmp x default_string`, null against null is `0`, and no
exception is set. In particular null against the text of `default_string` gives
the same result as that text against itself, namely `0` (for the sentinel `"NA"`,
`default_string` is `"NA"`). -/
theorem compare_null_uses_default_string (d : PyArray_StringDTypeObject) (x : Bytes)
    (h : ¬ (d.na_object ≠ none ∧ d.has_string_na = false)) :
    (compare .null (.str x) d).ret = NpyString_cmp d.default_string x ∧
    (compare .null (.str x) d).err = none ∧
    (compare (.str x) .null d).ret = NpyString_cmp x d.default_string ∧
    (compare (.str x) .null d).err = none ∧
    (compare .null .null d).ret = 0 ∧ (compare .null .null d).err = none ∧
    (compare .null (.str d.default_string) d).ret =
      (compare (.str d.default_string) (.str d.default_string) d).ret ∧
    (compare (.str d.default_string) (.str d.default_string) d).ret = 0 := by
  have h2 : (d.na_object != none && !d.has_string_na) = false := by
    cases hn : d.na_object <;> cases hs : d.has_string_na <;> simp_all
  simp [compare, _compare, NpyString_load, h2, NpyString_cmp_self]

/-- Witness for C4: `StringDType(na_object="NA")`, as built by the constructor;
null against `"NA"` equals `"NA"` against `"NA"`, which is `0`. -/
theorem compare_null_uses_default_string_witness :
    (new_stringdtype_instance demo_rt (some ⟨10⟩) 1 none).ret = some NA_descr ∧
    NA_descr.default_string = [78, 65] ∧
    (compare .null (.str [78, 65]) NA_descr).ret =
      (compare (.str [78, 65]) (.str [78, 65]) NA_descr).ret ∧
    (compare (.str [78, 65]) (.str [78, 65]) NA_descr).ret = 0 :=
  have h := compare_null_uses_default_string NA_descr [78, 65] (by decide)
  ⟨by decide, rfl, h.2.2.2.2.2.2.1, h.2.2.2.2.2.2.2⟩

/-! ## Element access -/

/-- With a text candidate that is not classified as null, `setitem` packs the
candidate's own UTF-8 bytes or fails leaving the slot as it was. -/
theorem stringdtype_setitem_text (rt : PyRuntime) (d : PyArray_StringDTypeObject)
    (obj : PyObject) (slot : npy_packed_static_string)
    (htext : rt.is_exact_unicode obj = true)
    (hnonnull : d.na_object = none ∨ na_eq_cmp rt (some obj) d.na_object = 0)
    (hset : (stringdtype_setitem rt d obj slot).ret = 0) :
    ∃ t, rt.PyUnicode_AsUTF8AndSize obj = some t ∧
      (stringdtype_setitem rt d obj slot).slot = .str t := by
  have hpath : ¬ (d.na_object ≠ none ∧
      (if d.na_object ≠ none then na_eq_cmp rt (some obj) d.na_object else 0) = -1) ∧
      ¬ (d.na_object ≠ none ∧
      (if d.na_object ≠ none then na_eq_cmp rt (some obj) d.na_object else 0) ≠ 0) := by
    rcases hnonnull with hn | h0
    · simp [hn]
    · simp [h0]
  unfold stringdtype_setitem at hset ⊢
  simp only [hpath.1, hpath.2, if_false, as_pystring, htext, if_true] at hset ⊢
  cases hu : rt.PyUnicode_AsUTF8AndSize obj with
  | none => simp [hu] at hset
  | some t =>
    refine ⟨t, rfl, ?_⟩
    simp only [hu] at hset ⊢
    cases slot <;> simp only [NpyString_pack] at hset ⊢ <;> try (simp at hset)
    all_goals
      by_cases ha : rt.arena_alloc_ok t.length = true
      · simp [ha]
      · simp [ha] at hset

/-- C5. Round trip. Let `obj` be a text (exact `str`) that the descriptor does not
classify as null, and let `setitem` of `obj` into a slot succeed. Then the slot
holds exactly the UTF-8 bytes `t` of `obj`, and `getitem` on that slot succeeds
and returns a text whose UTF-8 bytes are `t`. The arena's pack/load are inverse
by the arena model; `hcodec` is the matching assumption on the interpreter:
creating a text from the bytes of `obj` yields a text with those bytes. Nothing
is assumed on the length or content of `t`. -/
theorem setitem_getitem_roundtrip (rt : PyRuntime) (d : PyArray_StringDTypeObject)
    (obj : PyObject) (slot : npy_packed_static_string)
    (htext : rt.is_exact_unicode obj = true)
    (hnonnull : d.na_object = none ∨ na_eq_cmp rt (some obj) d.na_object = 0)
    (hset : (stringdtype_setitem rt d obj slot).ret = 0)
    (hcodec : ∀ t, rt.PyUnicode_AsUTF8AndSize obj = some t →
      ∃ o, PyUnicode_FromStringAndSize rt t = some o ∧
        rt.PyUnicode_AsUTF8AndSize o = some t) :
    ∃ t r, rt.PyUnicode_AsUTF8AndSize obj = some t ∧
      (stringdtype_setitem rt d obj slot).slot = .str t ∧
      (stringdtype_getitem rt d (stringdtype_setitem rt d obj slot).slot).val = some r ∧
      (stringdtype_getitem rt d (stringdtype_setitem rt d obj slot).slot).err = none ∧
      rt.PyUnicode_AsUTF8AndSize r = some t := by
  obtain ⟨t, ht, hslot⟩ := stringdtype_setitem_text rt d obj slot htext hnonnull hset
  obtain ⟨o, ho, hot⟩ := hcodec t ht
  refine ⟨t, o, ht, hslot, ?_, ?_, hot⟩
  · rw [hslot]
    simp [stringdtype_getitem, NpyString_load, ho]
  · rw [hslot]
    simp [stringdtype_getitem, NpyString_load, ho]

/-- Witness for C5: `"abc"` stored through `StringDType(na_object="NA")` into a
slot that held a null marker. -/
theorem setitem_getitem_roundtrip_witness :
    ∃ t r, demo_rt.PyUnicode_AsUTF8AndSize ⟨11⟩ = some t ∧
      (stringdtype_setitem demo_rt NA_descr ⟨11⟩ .null).slot = .str t ∧
      (stringdtype_getitem demo_rt NA_descr
        (stringdtype_setitem demo_rt NA_descr ⟨11⟩ .null).slot).val = some r ∧
      (stringdtype_getitem demo_rt NA_descr
        (stringdtype_setitem demo_rt NA_descr ⟨11⟩ .null).slot).err = none ∧
      demo_rt.PyUnicode_AsUTF8AndSize r = some t :=
  setitem_getitem_roundtrip demo_rt NA_descr ⟨11⟩ .null (by decide) (by decide)
    (by decide)
    (by
      intro t ht
      have : t = [97, 98, 99] := by
        have h2 : demo_rt.PyUnicode_AsUTF8AndSize ⟨11⟩ = some [97, 98, 99] := by decide
        rw [h2] at ht
        exact (Option.some.inj ht).symm
      subst this
      exact ⟨⟨50⟩, by decide, by decide⟩)

/-- C6. Null round trip. With a sentinel set, for every candidate `v` that is
sentinel-equal to it and every well-formed slot, `setitem` succeeds and leaves a
null marker in the slot, whatever the coercion flag and without asking for the
text of `v`; `getitem` on that slot then succeeds and returns the descriptor's
sentinel object itself, to which `v` is sentinel-equal. -/
theorem setitem_getitem_null_roundtrip (rt : PyRuntime) (d : PyArray_StringDTypeObject)
    (v : PyObject) (slot : npy_packed_static_string)
    (hnull : d.na_object ≠ none)
    (heq : na_eq_cmp rt (some v) d.na_object = 1)
    (hslot : slot ≠ .corrupt) :
    (stringdtype_setitem rt d v slot).ret = 0 ∧
    (stringdtype_setitem rt d v slot).slot = .null ∧
    (stringdtype_setitem rt d v slot).err = none ∧
    (stringdtype_setitem rt d v slot).trace =
      [Event.na_eq_cmp, Event.acquire_allocator d.allocator, Event.NpyString_pack_null,
        Event.release_allocator d.allocator] ∧
    (stringdtype_getitem rt d (stringdtype_setitem rt d v slot).slot).val = d.na_object ∧
    (stringdtype_getitem rt d (stringdtype_setitem rt d v slot).slot).err = none ∧
    na_eq_cmp rt (some v)
      (stringdtype_getitem rt d (stringdtype_setitem rt d v slot).slot).val = 1 := by
  have hs : stringdtype_setitem rt d v slot =
      { ret := 0, slot := .null, err := none
        trace := [Event.na_eq_cmp, Event.acquire_allocator d.allocator,
          Event.NpyString_pack_null, Event.release_allocator d.allocator] } := by
    cases slot with
    | corrupt => exact absurd rfl hslot
    | null => simp [stringdtype_setitem, hnull, heq, NpyString_pack_null]
    | str b => simp [stringdtype_setitem, hnull, heq, NpyString_pack_null]
  have hg : (stringdtype_getitem rt d .null).val = d.na_object ∧
      (stringdtype_getitem rt d .null).err = none := by
    simp [stringdtype_getitem, NpyString_load, hnull]
  rw [hs]
  exact ⟨rfl, rfl, rfl, rfl, hg.1, hg.2, by rw [hg.1]; exact heq⟩

/-- Witness for C6: a `float('nan')` object other than the sentinel, stored through
`StringDType(na_object=nan)` into a slot holding `"abc"`; what is read back is
the sentinel object. -/
theorem setitem_getitem_null_roundtrip_witness :
    (stringdtype_setitem demo_rt nan_descr ⟨22⟩ (.str [97, 98, 99])).slot = .null ∧
    (stringdtype_getitem demo_rt nan_descr
      (stringdtype_setitem demo_rt nan_descr ⟨22⟩ (.str [97, 98, 99])).slot).val =
      some ⟨20⟩ :=
  have h := setitem_getitem_null_roundtrip demo_rt nan_descr ⟨22⟩ (.str [97, 98, 99])
    (by decide) (by decide) (by decide)
  ⟨h.2.1, h.2.2.2.2.1⟩

/-- C7. With coercion disabled, for every candidate `v` that is not a text (exact
`str`) and not sentinel-equal to the sentinel (or there is no sentinel), `setitem`
fails with the `ValueError` "StringDType only allows string data when string
coercion is disabled.", does not call `PyObject_Str`, packs nothing, and leaves
the slot as it was. -/
theorem setitem_rejects_non_string (rt : PyRuntime) (d : PyArray_StringDTypeObject)
    (v : PyObject) (slot : npy_packed_static_string)
    (hcoerce : d.coerce = 0)
    (hnot_text : rt.is_exact_unicode v = false)
    (hnot_na : d.na_object = none ∨ na_eq_cmp rt (some v) d.na_object = 0) :
    (stringdtype_setitem rt d v slot).ret = -1 ∧
    (stringdtype_setitem rt d v slot).err = some (.ValueError
      "StringDType only allows string data when string coercion is disabled.") ∧
    (stringdtype_setitem rt d v slot).slot = slot ∧
    Event.PyObject_Str ∉ (stringdtype_setitem rt d v slot).trace ∧
    Event.NpyString_pack ∉ (stringdtype_setitem rt d v slot).trace ∧
    Event.NpyString_pack_null ∉ (stringdtype_setitem rt d v slot).trace := by
  rcases hnot_na with hn | h0
  · simp [stringdtype_setitem, hn, as_pystring, hnot_text, hcoerce]
  · by_cases hn : d.na_object = none
    · simp [stringdtype_setitem, hn, as_pystring, hnot_text, hcoerce]
    · simp [stringdtype_setitem, hn, h0, as_pystring, hnot_text, hcoerce]

/-- Witness for C7: the float `3.5` stored through `StringDType(coerce=False)`. -/
theorem setitem_rejects_non_string_witness :
    (stringdtype_setitem demo_rt strict_descr ⟨21⟩ (.str [97, 98, 99])).ret = -1 ∧
    (stringdtype_setitem demo_rt strict_descr ⟨21⟩ (.str [97, 98, 99])).slot =
      .str [97, 98, 99] :=
  have h := setitem_rejects_non_string demo_rt strict_descr ⟨21⟩ (.str [97, 98, 99])
    (by decide) (by decide) (by decide)
  ⟨h.1, h.2.2.1⟩

/-- C8. `getitem` on a slot holding a null marker never fails: it returns the
sentinel object when the descriptor has one and the empty-string object when it
has none, with no exception set. On a slot holding a string it returns the text
object newly created from exactly the unpacked bytes. -/
theorem getitem_null_and_string (rt : PyRuntime) (d : PyArray_StringDTypeObject) :
    (stringdtype_getitem rt d .null).val =
      (if d.na_object ≠ none then d.na_object else some rt.unicode_empty) ∧
    (stringdtype_getitem rt d .null).val ≠ none ∧
    (stringdtype_getitem rt d .null).err = none ∧
    ∀ b : Bytes, (stringdtype_getitem rt d (.str b)).val =
      PyUnicode_FromStringAndSize rt b := by
  refine ⟨?_, ?_, ?_, ?_⟩
  · cases h : d.na_object <;>
      simp [stringdtype_getitem, NpyString_load, h, PyUnicode_FromStringAndSize]
  · cases h : d.na_object <;>
      simp [stringdtype_getitem, NpyString_load, h, PyUnicode_FromStringAndSize]
  · cases h : d.na_object <;>
      simp [stringdtype_getitem, NpyString_load, h, PyUnicode_FromStringAndSize]
  · intro b
    cases h : PyUnicode_FromStringAndSize rt b <;>
      simp [stringdtype_getitem, NpyString_load, h]

/-! ## Descriptor equality and promotion -/

/-- C9. `_eq_comparison` reports equality exactly when the coercion flags are
equal and the sentinels are sentinel-equal, an absent sentinel being equal to an
absent one only. On two descriptors `==` returns `True` exactly when it reports
equality and `False` exactly when it reports inequality, `!=` returns the
opposite answer, and unless an exception was already pending on entry both
operators do return `True` or `False`. -/
theorem descriptors_equal_iff (rt : PyRuntime) (d1 d2 : PyArray_StringDTypeObject) :
    (_eq_comparison rt d1.coerce d2.coerce d1.na_object d2.na_object = 1 ↔
      d1.coerce = d2.coerce ∧ na_eq_cmp rt d1.na_object d2.na_object = 1) ∧
    na_eq_cmp rt none none = 1 ∧
    (∀ o : PyObject, na_eq_cmp rt none (some o) = 0 ∧ na_eq_cmp rt (some o) none = 0) ∧
    (PyArray_StringDType_richcompare rt d1 (.stringdtype d2) .Py_EQ = .Py_True ↔
      _eq_comparison rt d1.coerce d2.coerce d1.na_object d2.na_object = 1) ∧
    (PyArray_StringDType_richcompare rt d1 (.stringdtype d2) .Py_EQ = .Py_False ↔
      _eq_comparison rt d1.coerce d2.coerce d1.na_object d2.na_object = 0) ∧
    (PyArray_StringDType_richcompare rt d1 (.stringdtype d2) .Py_NE = .Py_True ↔
      PyArray_StringDType_richcompare rt d1 (.stringdtype d2) .Py_EQ = .Py_False) ∧
    (PyArray_StringDType_richcompare rt d1 (.stringdtype d2) .Py_NE = .Py_False ↔
      PyArray_StringDType_richcompare rt d1 (.stringdtype d2) .Py_EQ = .Py_True) ∧
    (rt.PyErr_Occurred = true ∨
      (PyArray_StringDType_richcompare rt d1 (.stringdtype d2) .Py_EQ ≠ .NULL ∧
       PyArray_StringDType_richcompare rt d1 (.stringdtype d2) .Py_NE ≠ .NULL)) := by
  refine ⟨?_, na_eq_cmp_self rt none, ?_, ?_, ?_, ?_, ?_, ?_⟩
  · unfold _eq_comparison
    by_cases hc : d1.coerce = d2.coerce <;> simp [hc]
  · intro o
    simp [na_eq_cmp]
  · rcases _eq_comparison_range rt d1.coerce d2.coerce d1.na_object d2.na_object with
      h | h | h <;> simp [PyArray_StringDType_richcompare, h]
  · rcases _eq_comparison_range rt d1.coerce d2.coerce d1.na_object d2.na_object with
      h | h | h <;> simp [PyArray_StringDType_richcompare, h]
  · rcases _eq_comparison_range rt d1.coerce d2.coerce d1.na_object d2.na_object with
      h | h | h <;> simp [PyArray_StringDType_richcompare, h]
  · rcases _eq_comparison_range rt d1.coerce d2.coerce d1.na_object d2.na_object with
      h | h | h <;> simp [PyArray_StringDType_richcompare, h]
  · by_cases he : rt.PyErr_Occurred = true
    · exact Or.inl he
    · refine Or.inr ?_
      have hna : na_eq_cmp rt d1.na_object d2.na_object ≠ -1 := by
        unfold na_eq_cmp
        split
        · decide
        · split
          · dsimp only
            have hg : ∀ x : Option Bool,
                (match x with
                  | none => (0 : Int)
                  | some ret => if ret then 1 else 0) ≠ -1 := by
              intro x
              rcases x with _ | (_ | _) <;> simp
            have he2 : rt.PyErr_Occurred = false := by simpa using he
            split
            · simp only [he2, Bool.false_eq_true, and_false, if_false]
              split
              · decide
              · exact hg _
            · exact hg _
          · decide
      have heq : _eq_comparison rt d1.coerce d2.coerce d1.na_object d2.na_object ≠ -1 := by
        unfold _eq_comparison
        split
        · decide
        · exact hna
      rcases _eq_comparison_range rt d1.coerce d2.coerce d1.na_object d2.na_object with
        h | h | h
      · simp [PyArray_StringDType_richcompare, h]
      · simp [PyArray_StringDType_richcompare, h]
      · exact absurd h heq

/-- A descriptor that was constructed in this interpreter state can be constructed
again from its own sentinel and coercion flag whenever a new arena is available. -/
theorem new_stringdtype_instance_again (rt : PyRuntime) (na_object : Option PyObject)
    (coerce : Int) (allocator : Option Nat) (d : PyArray_StringDTypeObject) (al : Nat)
    (h : (new_stringdtype_instance rt na_object coerce allocator).ret = some d)
    (hal : rt.NpyString_new_allocator = some al) :
    ∃ r, (new_stringdtype_instance rt d.na_object d.coerce none).ret = some r ∧
      (new_stringdtype_instance rt d.na_object d.coerce none).err = none := by
  obtain ⟨hna, hco⟩ := new_stringdtype_instance_fields rt na_object coerce allocator d h
  rw [hna, hco]
  unfold new_stringdtype_instance at h ⊢
  split at h
  · simp at h
  · rename_i htp
    simp only [htp, if_false, hal]
    dsimp only at h
    split at h
    · simp [new_stringdtype_instance_fail] at h
    · split at h
      · simp
      · rename_i na
        split at h
        · simp [new_stringdtype_instance_fail] at h
        · rename_i hcl
          split at h
          · simp [new_stringdtype_instance_fail] at h
          · rename_i hbn
            simp [hcl, hbn]

/-- C10. If two descriptors are equal (`_eq_comparison` is `1`), `common_instance`
is the construction of a fresh descriptor from the first one's sentinel and
coercion flag: every descriptor it returns is equal to both inputs, and it does
return one, with no exception set, whenever the first input was built by the
constructor in this interpreter state and a new arena can be created. If they are
not equal it fails with `ValueError` "Cannot find common instance for unequal
dtype instances" and performs no construction step. -/
theorem common_instance_spec (rt : PyRuntime) (d1 d2 : PyArray_StringDTypeObject) :
    (_eq_comparison rt d1.coerce d2.coerce d1.na_object d2.na_object = 1 →
      common_instance rt d1 d2 = new_stringdtype_instance rt d1.na_object d1.coerce none ∧
      (∀ r, (common_instance rt d1 d2).ret = some r →
        _eq_comparison rt r.coerce d1.coerce r.na_object d1.na_object = 1 ∧
        _eq_comparison rt r.coerce d2.coerce r.na_object d2.na_object = 1) ∧
      (∀ na_object coerce allocator al,
        (new_stringdtype_instance rt na_object coerce allocator).ret = some d1 →
        rt.NpyString_new_allocator = some al →
        ∃ r, (common_instance rt d1 d2).ret = some r ∧
          (common_instance rt d1 d2).err = none)) ∧
    (_eq_comparison rt d1.coerce d2.coerce d1.na_object d2.na_object ≠ 1 →
      common_instance rt d1 d2 =
        { ret := none
          err := some
            (.ValueError "Cannot find common instance for unequal dtype instances")
          trace := [] }) := by
  refine ⟨?_, ?_⟩
  · intro h
    have hci : common_instance rt d1 d2 =
        new_stringdtype_instance rt d1.na_object d1.coerce none := by
      simp [common_instance, h]
    refine ⟨hci, ?_, ?_⟩
    · intro r hr
      rw [hci] at hr
      obtain ⟨hna, hco⟩ := new_stringdtype_instance_fields rt _ _ _ r hr
      rw [hna, hco]
      refine ⟨?_, h⟩
      simp [_eq_comparison, na_eq_cmp_self]
    · intro na_object coerce allocator al hnew hal
      rw [hci]
      exact new_stringdtype_instance_again rt na_object coerce allocator d1 al hnew hal
  · intro hne
    rcases _eq_comparison_range rt d1.coerce d2.coerce d1.na_object d2.na_object with
      h | h | h
    · exact absurd h hne
    · simp [common_instance, h]
    · simp [common_instance, h]

/-- C10 at concrete inputs on the example heap: `StringDType(na_object="NA")` with
itself yields a descriptor equal to it, and with `StringDType(na_object=nan)` it
fails with the `ValueError`. -/
theorem common_instance_spec_witness :
    (∃ r, (common_instance demo_rt NA_descr NA_descr).ret = some r ∧
      _eq_comparison demo_rt r.coerce NA_descr.coerce r.na_object NA_descr.na_object = 1) ∧
    common_instance demo_rt NA_descr nan_descr =
      { ret := none
        err := some
          (.ValueError "Cannot find common instance for unequal dtype instances")
        trace := [] } :=
  have hA := (common_instance_spec demo_rt NA_descr NA_descr).1 (by decide)
  have hB := (common_instance_spec demo_rt NA_descr nan_descr).2 (by decide)
  have ⟨r, hr, _⟩ := hA.2.2 (some ⟨10⟩) 1 none 1 (by decide) (by decide)
  ⟨⟨r, hr, (hA.2.1 r hr).1⟩, hB⟩

/-! ## Construction and lifecycle -/

/-- Every constructed descriptor is tagged `2`. With a supplied arena it uses that
arena and creates none; without one its arena is the one `NpyString_new_allocator`
returned, created during the call. A descriptor object is always created. -/
theorem new_stringdtype_instance_arena (rt : PyRuntime) (na_object : Option PyObject)
    (coerce : Int) (allocator : Option Nat) (r : PyArray_StringDTypeObject)
    (h : (new_stringdtype_instance rt na_object coerce allocator).ret = some r) :
    r.array_owned = 2 ∧
    Event.tp_new ∈ (new_stringdtype_instance rt na_object coerce allocator).trace ∧
    (∀ al, allocator = some al → r.allocator = al ∧
      ∀ a, Event.new_allocator a ∉
        (new_stringdtype_instance rt na_object coerce allocator).trace) ∧
    (allocator = none → rt.NpyString_new_allocator = some r.allocator ∧
      Event.new_allocator r.allocator ∈
        (new_stringdtype_instance rt na_object coerce allocator).trace) := by
  unfold new_stringdtype_instance at h ⊢
  split at h
  · simp at h
  · rename_i htp
    simp only [htp, if_false] at h ⊢
    cases allocator with
    | none =>
      cases hal : rt.NpyString_new_allocator with
      | none => simp [hal, new_stringdtype_instance_fail] at h
      | some al =>
        simp only [hal] at h ⊢
        cases na_object with
        | none => simp at h; subst h; simp
        | some na =>
          simp only at h ⊢
          cases hcl : classify_na_object rt na with
          | error e => simp [hcl, new_stringdtype_instance_fail] at h
          | ok v =>
            obtain ⟨v1, v2, v3⟩ := v
            simp only [hcl] at h ⊢
            cases hbn : build_na_name rt na with
            | error e => simp [hbn, new_stringdtype_instance_fail] at h
            | ok nm => simp [hbn] at h ⊢; subst h; simp
    | some al =>
      simp only at h ⊢
      cases na_object with
      | none => simp at h; subst h; simp
      | some na =>
        simp only at h ⊢
        cases hcl : classify_na_object rt na with
        | error e => simp [hcl, new_stringdtype_instance_fail] at h
        | ok v =>
          obtain ⟨v1, v2, v3⟩ := v
          simp only [hcl] at h ⊢
          cases hbn : build_na_name rt na with
          | error e => simp [hbn, new_stringdtype_instance_fail] at h
          | ok nm => simp [hbn] at h ⊢; subst h; simp

/-- A descriptor that was constructed in this interpreter state can be constructed
again from its own sentinel and coercion flag over any supplied arena. -/
theorem new_stringdtype_instance_view_again (rt : PyRuntime) (na_object : Option PyObject)
    (coerce : Int) (allocator : Option Nat) (d : PyArray_StringDTypeObject) (al : Nat)
    (h : (new_stringdtype_instance rt na_object coerce allocator).ret = some d) :
    ∃ r, (new_stringdtype_instance rt d.na_object d.coerce (some al)).ret = some r ∧
      (new_stringdtype_instance rt d.na_object d.coerce (some al)).err = none := by
  obtain ⟨hna, hco⟩ := new_stringdtype_instance_fields rt na_object coerce allocator d h
  rw [hna, hco]
  unfold new_stringdtype_instance at h ⊢
  split at h
  · simp at h
  · rename_i htp
    simp only [htp, if_false]
    dsimp only at h
    split at h
    · simp [new_stringdtype_instance_fail] at h
    · split at h
      · simp
      · rename_i na
        split at h
        · simp [new_stringdtype_instance_fail] at h
        · rename_i hcl
          split at h
          · simp [new_stringdtype_instance_fail] at h
          · rename_i hbn
            simp [hcl, hbn]

/-- C11 fails as stated: on the example heap where arena `1` exists,
`common_instance` of `StringDType(na_object="NA")` (living in arena `1`) with
itself succeeds, and the descriptor it returns is not tagged `1` (owned). -/
theorem common_instance_not_owned_counterexample :
    _eq_comparison demo_rt_later NA_descr.coerce NA_descr.coerce NA_descr.na_object
      NA_descr.na_object = 1 ∧
    demo_rt_later.arena_in_use NA_descr.allocator = true ∧
    (common_instance demo_rt_later NA_descr NA_descr).ret ≠ none ∧
    (common_instance demo_rt_later NA_descr NA_descr).ret.map (fun r => r.array_owned) ≠
      some 1 := by
  decide

/-- C11, amended. Let the two descriptors be equal and their arenas exist when the
call is made. A descriptor returned by `common_instance` is freshly constructed
(a new object is created during the call, and it differs from both inputs), has
the sentinel and coercion flag of the first input, and its arena is newly
created during the call: it did not exist before and is distinct from both
inputs' arenas. The descriptor is not tagged owned; no step of the construction
assigns that tag. -/
theorem common_instance_fresh (rt : PyRuntime) (d1 d2 r : PyArray_StringDTypeObject)
    (heq : _eq_comparison rt d1.coerce d2.coerce d1.na_object d2.na_object = 1)
    (hr : (common_instance rt d1 d2).ret = some r)
    (hlive1 : rt.arena_in_use d1.allocator = true)
    (hlive2 : rt.arena_in_use d2.allocator = true) :
    r.na_object = d1.na_object ∧ r.coerce = d1.coerce ∧
    rt.NpyString_new_allocator = some r.allocator ∧
    Event.tp_new ∈ (common_instance rt d1 d2).trace ∧
    Event.new_allocator r.allocator ∈ (common_instance rt d1 d2).trace ∧
    rt.arena_in_use r.allocator = false ∧
    r.allocator ≠ d1.allocator ∧ r.allocator ≠ d2.allocator ∧
    r ≠ d1 ∧ r ≠ d2 ∧
    r.array_owned ≠ 1 := by
  have hci : common_instance rt d1 d2 =
      new_stringdtype_instance rt d1.na_object d1.coerce none := by
    simp [common_instance, heq]
  rw [hci] at hr ⊢
  obtain ⟨hna, hco⟩ := new_stringdtype_instance_fields rt _ _ _ r hr
  obtain ⟨hown, htp, _, hnone⟩ := new_stringdtype_instance_arena rt _ _ _ r hr
  obtain ⟨hal, hev⟩ := hnone rfl
  have hnew : rt.arena_in_use r.allocator = false := rt.new_allocator_fresh _ hal
  have h1 : r.allocator ≠ d1.allocator := by
    intro h
    rw [h, hlive1] at hnew
    exact absurd hnew (by decide)
  have h2 : r.allocator ≠ d2.allocator := by
    intro h
    rw [h, hlive2] at hnew
    exact absurd hnew (by decide)
  refine ⟨hna, hco, hal, htp, hev, hnew, h1, h2, ?_, ?_, ?_⟩
  · intro h
    exact h1 (by rw [h])
  · intro h
    exact h2 (by rw [h])
  · rw [hown]
    decide

/-- Witness for the amended C11: `StringDType(na_object="NA")`, living in arena `1`,
with itself on the example heap where arena `1` exists; the new descriptor lives
in arena `2`. -/
theorem common_instance_fresh_witness :
    (common_instance demo_rt_later NA_descr NA_descr).ret =
      some { NA_descr with allocator := 2 } ∧
    ({ NA_descr with allocator := 2 } : PyArray_StringDTypeObject).allocator ≠
      NA_descr.allocator ∧
    ({ NA_descr with allocator := 2 } : PyArray_StringDTypeObject).na_object =
      NA_descr.na_object :=
  have hr : (common_instance demo_rt_later NA_descr NA_descr).ret =
      some { NA_descr with allocator := 2 } := by decide
  have h := common_instance_fresh demo_rt_later NA_descr NA_descr
    { NA_descr with allocator := 2 } (by decide) hr (by decide) (by decide)
  ⟨hr, h.2.2.2.2.2.2.1, h.1⟩

/-- C12. The function `common_dtype` returns its own class exactly when the other
class has the type number of the fixed-width unicode kind, and `Py_NotImplemented`
for every other class. -/
theorem common_dtype_iff (NPY_UNICODE : Int) (cls other : PyArray_DTypeMeta) :
    (common_dtype NPY_UNICODE cls other = .dtype cls ↔ other.type_num = NPY_UNICODE) ∧
    (common_dtype NPY_UNICODE cls other = .Py_NotImplemented ↔
      other.type_num ≠ NPY_UNICODE) := by
  unfold common_dtype
  by_cases h : other.type_num = NPY_UNICODE <;> simp [h]

/-- C13 fails as stated: finalizing the view `StringDType(na_object="NA")` over
arena `1` returns a new descriptor that is again tagged `2` (view) and uses the
same arena `1`; no arena is created. -/
theorem finalize_view_counterexample :
    NA_descr.array_owned = 2 ∧
    (stringdtype_finalize_descr demo_rt NA_descr).returns_argument = false ∧
    (stringdtype_finalize_descr demo_rt NA_descr).ret.map (fun r => r.array_owned) =
      some 2 ∧
    (stringdtype_finalize_descr demo_rt NA_descr).ret.map (fun r => r.allocator) =
      some NA_descr.allocator ∧
    (stringdtype_finalize_descr demo_rt NA_descr).trace =
      [Event.tp_new, Event.PyObject_Str] := by
  decide

/-- What `stringdtype_finalize_descr` does on a descriptor that is not
independent: it constructs a descriptor over the argument's arena. -/
theorem stringdtype_finalize_descr_not_independent (rt : PyRuntime)
    (d : PyArray_StringDTypeObject) (h : d.array_owned ≠ 0) :
    (stringdtype_finalize_descr rt d).returns_argument = false ∧
    (stringdtype_finalize_descr rt d).dtype = d ∧
    (stringdtype_finalize_descr rt d).trace =
      (new_stringdtype_instance rt d.na_object d.coerce (some d.allocator)).trace ∧
    (∀ r, (stringdtype_finalize_descr rt d).ret = some r →
      r.na_object = d.na_object ∧ r.coerce = d.coerce ∧ r.allocator = d.allocator ∧
      r.array_owned = 2 ∧
      ∀ a, Event.new_allocator a ∉ (stringdtype_finalize_descr rt d).trace) ∧
    (∀ na_object coerce allocator,
      (new_stringdtype_instance rt na_object coerce allocator).ret = some d →
      ∃ r, (stringdtype_finalize_descr rt d).ret = some r ∧
        (stringdtype_finalize_descr rt d).null_dereferenced = false) := by
  have key : ∀ r0, (new_stringdtype_instance rt d.na_object d.coerce
      (some d.allocator)).ret = some r0 →
      stringdtype_finalize_descr rt d =
        { dtype := d, ret := some r0, returns_argument := false
          null_dereferenced := false
          err := (new_stringdtype_instance rt d.na_object d.coerce (some d.allocator)).err
          trace := (new_stringdtype_instance rt d.na_object d.coerce
            (some d.allocator)).trace } := by
    intro r0 hr0
    have h2 := (new_stringdtype_instance_arena rt _ _ _ r0 hr0).1
    simp [stringdtype_finalize_descr, h, hr0, h2]
  cases hn : (new_stringdtype_instance rt d.na_object d.coerce (some d.allocator)).ret with
  | none =>
    have hf : stringdtype_finalize_descr rt d =
        { dtype := d, ret := none, returns_argument := false, null_dereferenced := true
          err := (new_stringdtype_instance rt d.na_object d.coerce (some d.allocator)).err
          trace := (new_stringdtype_instance rt d.na_object d.coerce
            (some d.allocator)).trace } := by
      simp [stringdtype_finalize_descr, h, hn]
    rw [hf]
    refine ⟨rfl, rfl, rfl, ?_, ?_⟩
    · intro r hr
      simp at hr
    · intro na_object coerce allocator hnew
      obtain ⟨r, hr, _⟩ :=
        new_stringdtype_instance_view_again rt na_object coerce allocator d d.allocator hnew
      rw [hn] at hr
      simp at hr
  | some r0 =>
    rw [key r0 hn]
    obtain ⟨hna, hco⟩ := new_stringdtype_instance_fields rt _ _ _ r0 hn
    obtain ⟨hown, _, hsome, _⟩ := new_stringdtype_instance_arena rt _ _ _ r0 hn
    obtain ⟨hal, hev⟩ := hsome d.allocator rfl
    refine ⟨rfl, rfl, rfl, ?_, ?_⟩
    · intro r hr
      simp only [Option.some.injEq] at hr
      subst hr
      exact ⟨hna, hco, hal, hown, hev⟩
    · intro _ _ _ _
      exact ⟨r0, rfl, rfl⟩

/-- C13, amended. Finalizing a descriptor tagged as a view does not return the
argument and leaves it unchanged; it constructs a new descriptor with the same
sentinel and coercion flag over the SAME arena (none is created), again tagged as
a view. It does return one whenever the argument was built by the constructor in
this interpreter state. -/
theorem finalize_view_spec (rt : PyRuntime) (d : PyArray_StringDTypeObject)
    (hview : d.array_owned = 2) :
    (stringdtype_finalize_descr rt d).returns_argument = false ∧
    (stringdtype_finalize_descr rt d).dtype = d ∧
    (∀ r, (stringdtype_finalize_descr rt d).ret = some r →
      r.na_object = d.na_object ∧ r.coerce = d.coerce ∧ r.allocator = d.allocator ∧
      r.array_owned = 2 ∧
      ∀ a, Event.new_allocator a ∉ (stringdtype_finalize_descr rt d).trace) ∧
    (∀ na_object coerce allocator,
      (new_stringdtype_instance rt na_object coerce allocator).ret = some d →
      ∃ r, (stringdtype_finalize_descr rt d).ret = some r) := by
  have h := stringdtype_finalize_descr_not_independent rt d (by rw [hview]; decide)
  refine ⟨h.1, h.2.1, h.2.2.2.1, ?_⟩
  intro na_object coerce allocator hnew
  obtain ⟨r, hr, _⟩ := h.2.2.2.2 na_object coerce allocator hnew
  exact ⟨r, hr⟩

/-- Witness for the amended C13: the view `StringDType(na_object=nan)` on the
example heap. -/
theorem finalize_view_spec_witness :
    ∃ r, (stringdtype_finalize_descr demo_rt nan_descr).ret = some r ∧
      r.allocator = nan_descr.allocator ∧ r.array_owned = 2 :=
  have h := finalize_view_spec demo_rt nan_descr (by decide)
  have ⟨r, hr⟩ := h.2.2.2 (some ⟨20⟩) 1 none (by decide)
  ⟨r, hr, (h.2.2.1 r hr).2.2.1, (h.2.2.1 r hr).2.2.2.1⟩

/-- C14. Finalizing an independent descriptor (tag `0`) returns the argument
itself, with the tag changed to `1` (owned) and every other field as it was; no
descriptor is constructed and no arena is created. -/
theorem finalize_independent (rt : PyRuntime) (d : PyArray_StringDTypeObject)
    (hind : d.array_owned = 0) :
    (stringdtype_finalize_descr rt d).returns_argument = true ∧
    (stringdtype_finalize_descr rt d).ret = some { d with array_owned := 1 } ∧
    (stringdtype_finalize_descr rt d).dtype = { d with array_owned := 1 } ∧
    (stringdtype_finalize_descr rt d).dtype.allocator = d.allocator ∧
    (stringdtype_finalize_descr rt d).dtype.na_object = d.na_object ∧
    (stringdtype_finalize_descr rt d).dtype.coerce = d.coerce ∧
    (stringdtype_finalize_descr rt d).dtype.has_nan_na = d.has_nan_na ∧
    (stringdtype_finalize_descr rt d).dtype.has_string_na = d.has_string_na ∧
    (stringdtype_finalize_descr rt d).dtype.array_owned = 1 ∧
    (stringdtype_finalize_descr rt d).trace = [] ∧
    (stringdtype_finalize_descr rt d).err = none := by
  simp [stringdtype_finalize_descr, hind]

/-- Witness for C14: an independent `StringDType(na_object="NA")`. -/
theorem finalize_independent_witness :
    (stringdtype_finalize_descr demo_rt independent_descr).returns_argument = true ∧
    (stringdtype_finalize_descr demo_rt independent_descr).ret = some owned_descr :=
  have h := finalize_independent demo_rt independent_descr (by decide)
  ⟨h.1, h.2.1⟩

/-- C15, the code at the failing input: constructing `StringDType()` without an
arena on the example heap creates arena `1` and tags the descriptor `2` (view),
not `0` (independent); with arena `5` supplied the descriptor uses arena `5` and
is tagged `2`. -/
theorem new_stringdtype_instance_fresh_tagged_view :
    (new_stringdtype_instance demo_rt none 1 none).trace =
      [Event.tp_new, Event.new_allocator 1] ∧
    (new_stringdtype_instance demo_rt none 1 none).ret.map (fun r => r.allocator) =
      some 1 ∧
    (new_stringdtype_instance demo_rt none 1 none).ret.map (fun r => r.array_owned) =
      some 2 ∧
    (new_stringdtype_instance demo_rt none 1 (some 5)).ret.map (fun r => r.allocator) =
      some 5 ∧
    (new_stringdtype_instance demo_rt none 1 (some 5)).ret.map (fun r => r.array_owned) =
      some 2 := by
  decide

/-- No constructed descriptor releases its arena when it is destroyed. -/
theorem constructed_dealloc_releases_nothing (rt : PyRuntime) (na_object : Option PyObject)
    (coerce : Int) (allocator : Option Nat) (d : PyArray_StringDTypeObject)
    (h : (new_stringdtype_instance rt na_object coerce allocator).ret = some d) :
    stringdtype_dealloc d = [] := by
  simp [stringdtype_dealloc, (new_stringdtype_instance_arena rt _ _ _ d h).1]

/-- C16, the code at the failing input: `StringDType(coerce=False)` constructed
without an arena creates arena `1`. Finalizing it yields a second descriptor over
arena `1`. Destroying both descriptors, the only ones that refer to the arena,
releases nothing, so the arena is destroyed zero times. -/
theorem fresh_arena_never_destroyed :
    (new_stringdtype_instance demo_rt none 0 none).trace =
      [Event.tp_new, Event.new_allocator 1] ∧
    (new_stringdtype_instance demo_rt none 0 none).ret = some strict_descr ∧
    stringdtype_dealloc strict_descr = [] ∧
    (stringdtype_finalize_descr demo_rt strict_descr).dtype = strict_descr ∧
    (stringdtype_finalize_descr demo_rt strict_descr).ret.map
      (fun r => (r.allocator, stringdtype_dealloc r)) = some (1, []) := by
  decide

/-- C19. For every constructed descriptor: `default_string` is empty unless
`has_string_na`, and then it is the UTF-8 text of the sentinel; `na_name` is
empty when there is no sentinel, and otherwise the UTF-8 text of the sentinel's
`str()`. -/
theorem constructed_default_string_and_name (rt : PyRuntime)
    (na_object : Option PyObject) (coerce : Int) (allocator : Option Nat)
    (d : PyArray_StringDTypeObject)
    (h : (new_stringdtype_instance rt na_object coerce allocator).ret = some d) :
    (d.has_string_na = false → d.default_string = [] ∧ d.default_string.length = 0) ∧
    (d.has_string_na = true → ∃ na, d.na_object = some na ∧
      rt.PyUnicode_AsUTF8AndSize na = some d.default_string) ∧
    (d.na_object = none → d.na_name = []) ∧
    (∀ na, d.na_object = some na → ∃ s, rt.PyObject_Str na = some s ∧
      rt.PyUnicode_AsUTF8AndSize s = some d.na_name) := by
  unfold new_stringdtype_instance at h
  split at h
  · simp at h
  · dsimp only at h
    split at h
    · simp [new_stringdtype_instance_fail] at h
    · split at h
      · simp at h; subst h; simp
      · rename_i na
        split at h
        · simp [new_stringdtype_instance_fail] at h
        · rename_i hn hs ds hcl
          split at h
          · simp [new_stringdtype_instance_fail] at h
          · rename_i nm hbn
            simp at h
            subst h
            simp only [Option.some.injEq, reduceCtorEq, false_implies, true_and]
            have hname : ∃ s, rt.PyObject_Str na = some s ∧
                rt.PyUnicode_AsUTF8AndSize s = some nm := by
              unfold build_na_name at hbn
              split at hbn
              · simp at hbn
              · rename_i s hs1
                split at hbn
                · simp at hbn
                · rename_i u hu
                  split at hbn
                  · simp at hbn; subst hbn; exact ⟨s, hs1, hu⟩
                  · simp at hbn
            unfold classify_na_object at hcl
            split at hcl
            · split at hcl
              · simp at hcl
              · rename_i buf hbuf
                split at hcl
                · simp at hcl
                  obtain ⟨_, h2, h3⟩ := hcl
                  subst h2 h3
                  refine ⟨by simp, ?_, ?_⟩
                  · intro _
                    exact ⟨na, rfl, hbuf⟩
                  · intro na' hna'
                    subst hna'
                    exact hname
                · simp at hcl
            · have hsf : hs = false ∧ ds = [] := by
                split at hcl
                · simp at hcl
                · split at hcl <;> simp at hcl <;> exact ⟨hcl.2.1, hcl.2.2⟩
              obtain ⟨h2, h3⟩ := hsf
              subst h2 h3
              refine ⟨by simp, by simp, ?_⟩
              intro na' hna'
              subst hna'
              exact hname

/-- Witness for C19: `StringDType(na_object="NA")` and `StringDType(na_object=nan)`
on the example heap. -/
theorem constructed_default_string_and_name_witness :
    NA_descr.default_string = [78, 65] ∧ nan_descr.default_string = [] ∧
    (∃ s, demo_rt.PyObject_Str ⟨20⟩ = some s ∧
      demo_rt.PyUnicode_AsUTF8AndSize s = some nan_descr.na_name) :=
  have h := constructed_default_string_and_name demo_rt (some ⟨20⟩) 1 none nan_descr
    (by decide)
  ⟨rfl, (h.1 rfl).1, h.2.2.2 ⟨20⟩ rfl⟩

/-- C20 fails as stated: finalizing `StringDType(na_object="NA")` in the state
"owned" does not return the argument; it constructs a descriptor (a `tp_new`
step) tagged `2` (view) over the same arena. -/
theorem finalize_owned_counterexample :
    owned_descr.array_owned = 1 ∧
    (stringdtype_finalize_descr demo_rt owned_descr).returns_argument = false ∧
    Event.tp_new ∈ (stringdtype_finalize_descr demo_rt owned_descr).trace ∧
    (stringdtype_finalize_descr demo_rt owned_descr).ret ≠ some owned_descr ∧
    (stringdtype_finalize_descr demo_rt owned_descr).ret.map (fun r => r.array_owned) =
      some 2 := by
  decide

/-- C20, amended. Finalizing a descriptor that is already owned leaves the
argument unchanged (still owned, same arena) but does not return it: it
constructs a new descriptor with the same sentinel and coercion flag over the
argument's arena (no arena is created), tagged as a view. -/
theorem finalize_owned_spec (rt : PyRuntime) (d : PyArray_StringDTypeObject)
    (howned : d.array_owned = 1) :
    (stringdtype_finalize_descr rt d).returns_argument = false ∧
    (stringdtype_finalize_descr rt d).dtype = d ∧
    (stringdtype_finalize_descr rt d).dtype.array_owned = 1 ∧
    (stringdtype_finalize_descr rt d).trace =
      (new_stringdtype_instance rt d.na_object d.coerce (some d.allocator)).trace ∧
    (∀ r, (stringdtype_finalize_descr rt d).ret = some r →
      Event.tp_new ∈ (stringdtype_finalize_descr rt d).trace ∧
      r.na_object = d.na_object ∧ r.coerce = d.coerce ∧ r.allocator = d.allocator ∧
      r.array_owned = 2 ∧
      ∀ a, Event.new_allocator a ∉ (stringdtype_finalize_descr rt d).trace) := by
  have h := stringdtype_finalize_descr_not_independent rt d (by rw [howned]; decide)
  refine ⟨h.1, h.2.1, by rw [h.2.1]; exact howned, h.2.2.1, ?_⟩
  intro r hr
  refine ⟨?_, h.2.2.2.1 r hr⟩
  rw [h.2.2.1]
  unfold stringdtype_finalize_descr at hr
  simp only [howned, one_ne_zero, if_false] at hr
  split at hr
  · simp at hr
  · rename_i r0 hr0
    exact (new_stringdtype_instance_arena rt _ _ _ r0 hr0).2.1

/-- Witness for the amended C20: `StringDType(na_object="NA")` in the state
"owned". -/
theorem finalize_owned_spec_witness :
    (stringdtype_finalize_descr demo_rt owned_descr).returns_argument = false ∧
    (stringdtype_finalize_descr demo_rt owned_descr).dtype = owned_descr :=
  have h := finalize_owned_spec demo_rt owned_descr (by decide)
  ⟨h.1, h.2.1⟩

/-! ## Ordering facts -/

/-- Swapping the operands of the text comparison negates the result. -/
theorem NpyString_cmp_antisymm (a b : Bytes) : NpyString_cmp b a = - NpyString_cmp a b := by
  induction a generalizing b with
  | nil => cases b <;> simp [NpyString_cmp]
  | cons x xs ih =>
    cases b with
    | nil => simp [NpyString_cmp]
    | cons y ys =>
      have hxy : x < y ↔ x.toNat < y.toNat := Iff.rfl
      have hyx : y < x ↔ y.toNat < x.toNat := Iff.rfl
      simp only [NpyString_cmp]
      by_cases h1 : x < y
      · have h2 : ¬ y < x := by rw [hyx]; rw [hxy] at h1; omega
        simp [h1, h2]
      · by_cases h2 : y < x
        · simp [h1, h2]
        · simp [h1, h2, ih ys]

/-- The text comparison returns `0` exactly on equal texts. -/
theorem NpyString_cmp_eq_zero_iff (a b : Bytes) : NpyString_cmp a b = 0 ↔ a = b := by
  induction a generalizing b with
  | nil => cases b <;> simp [NpyString_cmp]
  | cons x xs ih =>
    cases b with
    | nil => simp [NpyString_cmp]
    | cons y ys =>
      have hxy : x < y ↔ x.toNat < y.toNat := Iff.rfl
      have hyx : y < x ↔ y.toNat < x.toNat := Iff.rfl
      have heq : x = y ↔ x.toNat = y.toNat := UInt8.ext_iff
      simp only [NpyString_cmp]
      by_cases h1 : x < y
      · have h3 : x ≠ y := by rw [Ne, heq]; rw [hxy] at h1; omega
        simp [h1, h3]
      · by_cases h2 : y < x
        · have h3 : x ≠ y := by rw [Ne, heq]; rw [hyx] at h2; omega
          simp [h1, h2, h3]
        · have h3 : x = y := by rw [heq]; rw [hxy] at h1; rw [hyx] at h2; omega
          simp [h1, h2, h3, ih ys]

/-- The text comparison returns `-1`, `0` or `1`. -/
theorem NpyString_cmp_range (a b : Bytes) :
    NpyString_cmp a b = -1 ∨ NpyString_cmp a b = 0 ∨ NpyString_cmp a b = 1 := by
  induction a generalizing b with
  | nil => cases b <;> simp [NpyString_cmp]
  | cons x xs ih =>
    cases b with
    | nil => simp [NpyString_cmp]
    | cons y ys =>
      simp only [NpyString_cmp]
      split
      · exact Or.inl rfl
      · split
        · exact Or.inr (Or.inr rfl)
        · exact ih ys

/-- The order given by the text comparison is transitive. -/
theorem NpyString_cmp_le_trans (a b c : Bytes) (h1 : NpyString_cmp a b ≤ 0)
    (h2 : NpyString_cmp b c ≤ 0) : NpyString_cmp a c ≤ 0 := by
  induction a generalizing b c with
  | nil => cases c <;> simp [NpyString_cmp]
  | cons x xs ih =>
    cases b with
    | nil => simp [NpyString_cmp] at h1
    | cons y ys =>
      cases c with
      | nil => simp [NpyString_cmp] at h2
      | cons z zs =>
        have hxy : x < y ↔ x.toNat < y.toNat := Iff.rfl
        have hyx : y < x ↔ y.toNat < x.toNat := Iff.rfl
        have hyz : y < z ↔ y.toNat < z.toNat := Iff.rfl
        have hzy : z < y ↔ z.toNat < y.toNat := Iff.rfl
        have hxz : x < z ↔ x.toNat < z.toNat := Iff.rfl
        have hzx : z < x ↔ z.toNat < x.toNat := Iff.rfl
        simp only [NpyString_cmp] at h1 h2 ⊢
        by_cases a1 : x < y
        · by_cases a2 : y < z
          · have : x < z := by rw [hxz]; rw [hxy] at a1; rw [hyz] at a2; omega
            simp [this]
          · by_cases a3 : z < y
            · simp [a2, a3] at h2
            · have : x < z := by
                rw [hxz]; rw [hxy] at a1; rw [hyz] at a2; rw [hzy] at a3; omega
              simp [this]
        · by_cases a1' : y < x
          · simp [a1, a1'] at h1
          · simp only [a1, a1', if_false] at h1
            by_cases a2 : y < z
            · have : x < z := by
                rw [hxz]; rw [hxy] at a1; rw [hyx] at a1'; rw [hyz] at a2; omega
              simp [this]
            · by_cases a3 : z < y
              · simp [a2, a3] at h2
              · simp only [a2, a3, if_false] at h2
                have n1 : ¬ x < z := by
                  rw [hxz]; rw [hxy] at a1; rw [hyx] at a1'; rw [hyz] at a2
                  rw [hzy] at a3; omega
                have n2 : ¬ z < x := by
                  rw [hzx]; rw [hxy] at a1; rw [hyx] at a1'; rw [hyz] at a2
                  rw [hzy] at a3; omega
                simp only [n1, n2, if_false]
                exact ih ys zs h1 h2

/-- Swapping the operands of the value comparison negates the result. -/
theorem key_cmp_antisymm (a b : SortKey) : key_cmp b a = - key_cmp a b := by
  cases a <;> cases b
  · exact NpyString_cmp_antisymm _ _
  · rfl
  · rfl
  · rfl

/-- The value comparison returns `0` exactly on equal values. -/
theorem key_cmp_eq_zero_iff (a b : SortKey) : key_cmp a b = 0 ↔ a = b := by
  cases a <;> cases b <;> simp [key_cmp, NpyString_cmp_eq_zero_iff]

/-- A value compares equal to itself. -/
theorem key_cmp_self (a : SortKey) : key_cmp a a = 0 := (key_cmp_eq_zero_iff a a).2 rfl

/-- The order given by the value comparison is transitive. -/
theorem key_cmp_le_trans (a b c : SortKey) (h1 : key_cmp a b ≤ 0) (h2 : key_cmp b c ≤ 0) :
    key_cmp a c ≤ 0 := by
  cases a <;> cases b <;> cases c <;> simp [key_cmp] at h1 h2 ⊢
  exact NpyString_cmp_le_trans _ _ _ h1 h2

/-- Strictly below, then below or equal, is strictly below. -/
theorem key_cmp_lt_of_lt_of_le (a b c : SortKey) (h1 : key_cmp a b < 0)
    (h2 : key_cmp b c ≤ 0) : key_cmp a c < 0 := by
  have h3 := key_cmp_le_trans a b c (le_of_lt h1) h2
  rcases lt_or_eq_of_le h3 with h | h
  · exact h
  · have hac : a = c := (key_cmp_eq_zero_iff a c).1 h
    subst hac
    have := key_cmp_antisymm a b
    omega

/-- Below or equal, then strictly below, is strictly below. -/
theorem key_cmp_lt_of_le_of_lt (a b c : SortKey) (h1 : key_cmp a b ≤ 0)
    (h2 : key_cmp b c < 0) : key_cmp a c < 0 := by
  have h3 := key_cmp_le_trans a b c h1 (le_of_lt h2)
  rcases lt_or_eq_of_le h3 with h | h
  · exact h
  · have hac : a = c := (key_cmp_eq_zero_iff a c).1 h
    subst hac
    have := key_cmp_antisymm a b
    omega

/-- Every value is below or equal to the null value. -/
theorem key_cmp_null_right (a : SortKey) : key_cmp a .null ≤ 0 := by
  cases a <;> simp [key_cmp]

/-- A comparison that sets no exception returns a positive value exactly when the
first slot is a null value or its value is strictly greater. -/
theorem compare_pos_iff (d : PyArray_StringDTypeObject) (a b : npy_packed_static_string)
    (h : (compare a b d).err = none) :
    (compare a b d).ret > 0 ↔
      slot_key d a = .null ∨ key_cmp (slot_key d a) (slot_key d b) > 0 := by
  obtain ⟨na, co, hnan, hstr, ao, ds, nn, al⟩ := d
  cases na <;> cases hnan <;> cases hstr <;> cases a <;> cases b <;>
    simp_all [compare, _compare, NpyString_load, slot_key, key_cmp]

/-- A comparison that sets no exception returns a negative value exactly when the
first slot's value is strictly smaller. -/
theorem compare_neg_iff (d : PyArray_StringDTypeObject) (a b : npy_packed_static_string)
    (h : (compare a b d).err = none) :
    (compare a b d).ret < 0 ↔ key_cmp (slot_key d a) (slot_key d b) < 0 := by
  obtain ⟨na, co, hnan, hstr, ao, ds, nn, al⟩ := d
  cases na <;> cases hnan <;> cases hstr <;> cases a <;> cases b <;>
    simp_all [compare, _compare, NpyString_load, slot_key, key_cmp]

/-! ## Search -/

/-- One more slot: `argmax` over `n + 1` slots is one loop step after `argmax` over
`n` slots. -/
theorem argmax_succ (d : PyArray_StringDTypeObject) (data : Nat → npy_packed_static_string)
    (n : Nat) (hn : 1 ≤ n) :
    argmax d data (n + 1) =
      if (compare (data n) (data (argmax d data n)) d).ret > 0 then n
      else argmax d data n := by
  obtain ⟨k, rfl⟩ : ∃ k, n = k + 1 := ⟨n - 1, by omega⟩
  simp only [argmax, Nat.add_sub_cancel]
  rw [List.range'_concat, List.foldl_append]
  simp [Nat.add_comm]

/-- One more slot: `argmin` over `n + 1` slots is one loop step after `argmin` over
`n` slots. -/
theorem argmin_succ (d : PyArray_StringDTypeObject) (data : Nat → npy_packed_static_string)
    (n : Nat) (hn : 1 ≤ n) :
    argmin d data (n + 1) =
      if (compare (data n) (data (argmin d data n)) d).ret < 0 then n
      else argmin d data n := by
  obtain ⟨k, rfl⟩ : ∃ k, n = k + 1 := ⟨n - 1, by omega⟩
  simp only [argmin, Nat.add_sub_cancel]
  rw [List.range'_concat, List.foldl_append]
  simp [Nat.add_comm]

/-- On a run whose comparisons set no exception, `argmin` is the smallest index
holding a minimal value. -/
theorem argmin_first_min (d : PyArray_StringDTypeObject)
    (data : Nat → npy_packed_static_string) (n : Nat) (hn : 1 ≤ n)
    (hok : ∀ i j, i < n → j < n → i ≠ j → (compare (data i) (data j) d).err = none) :
    argmin d data n < n ∧
    (∀ j, j < n →
      key_cmp (slot_key d (data (argmin d data n))) (slot_key d (data j)) ≤ 0) ∧
    (∀ j, j < argmin d data n →
      key_cmp (slot_key d (data (argmin d data n))) (slot_key d (data j)) < 0) := by
  induction n, hn using Nat.le_induction with
  | base =>
    have h0 : argmin d data 1 = 0 := by simp [argmin]
    rw [h0]
    refine ⟨by omega, ?_, ?_⟩
    · intro j hj
      have : j = 0 := by omega
      subst this
      exact le_of_eq (key_cmp_self _)
    · intro j hj
      omega
  | succ n hn ih =>
    obtain ⟨hlt, hmin, hfirst⟩ := ih (fun i j hi hj hij => hok i j (by omega) (by omega) hij)
    have herr := hok n (argmin d data n) (by omega) (by omega) (by omega)
    rw [argmin_succ d data n hn]
    by_cases hupd : (compare (data n) (data (argmin d data n)) d).ret < 0
    · simp only [hupd, if_true]
      have hk := (compare_neg_iff d _ _ herr).1 hupd
      refine ⟨by omega, ?_, ?_⟩
      · intro j hj
        by_cases hjn : j = n
        · subst hjn
          exact le_of_eq (key_cmp_self _)
        · exact le_of_lt (key_cmp_lt_of_lt_of_le _ _ _ hk (hmin j (by omega)))
      · intro j hj
        exact key_cmp_lt_of_lt_of_le _ _ _ hk (hmin j hj)
    · simp only [hupd, if_false]
      have hk : ¬ key_cmp (slot_key d (data n)) (slot_key d (data (argmin d data n))) < 0 :=
        fun h => hupd ((compare_neg_iff d _ _ herr).2 h)
      refine ⟨by omega, ?_, hfirst⟩
      intro j hj
      by_cases hjn : j = n
      · subst hjn
        have := key_cmp_antisymm (slot_key d (data j))
          (slot_key d (data (argmin d data j)))
        omega
      · exact hmin j (by omega)

/-- On a run whose comparisons set no exception, `argmax` is an index holding a
maximal value: the smallest such index when that value is a text, the largest
index of a null slot when it is the null value. -/
theorem argmax_max (d : PyArray_StringDTypeObject)
    (data : Nat → npy_packed_static_string) (n : Nat) (hn : 1 ≤ n)
    (hok : ∀ i j, i < n → j < n → i ≠ j → (compare (data i) (data j) d).err = none) :
    argmax d data n < n ∧
    (∀ j, j < n →
      key_cmp (slot_key d (data j)) (slot_key d (data (argmax d data n))) ≤ 0) ∧
    (slot_key d (data (argmax d data n)) ≠ .null → ∀ j, j < argmax d data n →
      key_cmp (slot_key d (data j)) (slot_key d (data (argmax d data n))) < 0) ∧
    (slot_key d (data (argmax d data n)) = .null → ∀ j, argmax d data n < j → j < n →
      slot_key d (data j) ≠ .null) := by
  induction n, hn using Nat.le_induction with
  | base =>
    have h0 : argmax d data 1 = 0 := by simp [argmax]
    rw [h0]
    refine ⟨by omega, ?_, ?_, ?_⟩
    · intro j hj
      have : j = 0 := by omega
      subst this
      exact le_of_eq (key_cmp_self _)
    · intro _ j hj
      omega
    · intro _ j h1 h2
      omega
  | succ n hn ih =>
    obtain ⟨hlt, hmax, hfirst, hlast⟩ :=
      ih (fun i j hi hj hij => hok i j (by omega) (by omega) hij)
    have herr := hok n (argmax d data n) (by omega) (by omega) (by omega)
    rw [argmax_succ d data n hn]
    by_cases hupd : (compare (data n) (data (argmax d data n)) d).ret > 0
    · simp only [hupd, if_true]
      rcases (compare_pos_iff d _ _ herr).1 hupd with hnull | hgt
      · refine ⟨by omega, ?_, ?_, ?_⟩
        · intro j _
          rw [hnull]
          exact key_cmp_null_right _
        · intro h
          exact absurd hnull h
        · intro _ j h1 h2
          omega
      · have hk : key_cmp (slot_key d (data (argmax d data n))) (slot_key d (data n)) < 0 := by
          have := key_cmp_antisymm (slot_key d (data n))
            (slot_key d (data (argmax d data n)))
          omega
        refine ⟨by omega, ?_, ?_, ?_⟩
        · intro j hj
          by_cases hjn : j = n
          · subst hjn
            exact le_of_eq (key_cmp_self _)
          · exact le_of_lt (key_cmp_lt_of_le_of_lt _ _ _ (hmax j (by omega)) hk)
        · intro _ j hj
          exact key_cmp_lt_of_le_of_lt _ _ _ (hmax j hj) hk
        · intro _ j h1 h2
          omega
    · simp only [hupd, if_false]
      have hnot := fun h => hupd ((compare_pos_iff d _ _ herr).2 h)
      have hnn : slot_key d (data n) ≠ .null := fun h => hnot (Or.inl h)
      have hle : key_cmp (slot_key d (data n)) (slot_key d (data (argmax d data n))) ≤ 0 := by
        by_contra hc
        exact hnot (Or.inr (by omega))
      refine ⟨by omega, ?_, hfirst, ?_⟩
      · intro j hj
        by_cases hjn : j = n
        · subst hjn
          exact hle
        · exact hmax j (by omega)
      · intro hm j h1 h2
        by_cases hjn : j = n
        · subst hjn
          exact hnn
        · exact hlast hm j h1 (by omega)

/-- C18 fails as stated: with the NaN-like sentinel of `StringDType(na_object=nan)`
and a run of two null slots, no comparison sets an exception and the two slots
hold the same value, yet `argmax` returns index `1`, not the smallest index `0`. -/
theorem argmax_null_ties_counterexample :
    (∀ i, i < 2 → ∀ j, j < 2 →
      (compare (all_null_run i) (all_null_run j) nan_descr).err = none) ∧
    slot_key nan_descr (all_null_run 0) = slot_key nan_descr (all_null_run 1) ∧
    argmax nan_descr all_null_run 2 = 1 ∧
    argmax nan_descr all_null_run 2 ≠ 0 := by
  decide

/-- C18, amended. Take a run of `n` slots, `n` within the range of the C `int`
loop counter, on which no comparison between two different slots sets an
exception. For `n ≤ 1` both results are `0`. For `n ≥ 1`, `argmin` returns the
smallest index holding a minimal value: no slot is smaller and every earlier slot
is strictly greater. `argmax` returns an index holding a maximal value; when that
value is a text it is the smallest such index (every earlier slot is strictly
smaller), and when it is the null value (sentinel that is not a string) it is the
largest index of a null slot. Values are compared by `key_cmp`: texts by code
points, the null value equal to itself and above every text. -/
theorem argmax_argmin_spec (d : PyArray_StringDTypeObject)
    (data : Nat → npy_packed_static_string) (n : Nat) (_hint : n < 2 ^ 31)
    (hok : ∀ i j, i < n → j < n → i ≠ j → (compare (data i) (data j) d).err = none) :
    (n ≤ 1 → argmax d data n = 0 ∧ argmin d data n = 0) ∧
    (1 ≤ n →
      (argmin d data n < n ∧
        (∀ j, j < n →
          key_cmp (slot_key d (data (argmin d data n))) (slot_key d (data j)) ≤ 0) ∧
        (∀ j, j < argmin d data n →
          key_cmp (slot_key d (data (argmin d data n))) (slot_key d (data j)) < 0)) ∧
      (argmax d data n < n ∧
        (∀ j, j < n →
          key_cmp (slot_key d (data j)) (slot_key d (data (argmax d data n))) ≤ 0) ∧
        (slot_key d (data (argmax d data n)) ≠ .null → ∀ j, j < argmax d data n →
          key_cmp (slot_key d (data j)) (slot_key d (data (argmax d data n))) < 0) ∧
        (slot_key d (data (argmax d data n)) = .null →
          ∀ j, argmax d data n < j → j < n → slot_key d (data j) ≠ .null))) := by
  refine ⟨?_, ?_⟩
  · intro h
    have h2 : n - 1 = 0 := by omega
    simp [argmax, argmin, h2]
  · intro h
    exact ⟨argmin_first_min d data n h hok, argmax_max d data n h hok⟩

/-- Witness for the amended C18: the run `"b"`, null, `"a"`, null, `"c"`, `"c"` under
`StringDType(na_object=nan)`: `argmin` is `2` (the `"a"`), `argmax` is `3` (the last
null slot). -/
theorem argmax_argmin_spec_witness :
    argmin nan_descr mixed_run 6 = 2 ∧ argmax nan_descr mixed_run 6 = 3 ∧
    (∀ j, j < 6 → key_cmp (slot_key nan_descr (mixed_run (argmin nan_descr mixed_run 6)))
      (slot_key nan_descr (mixed_run j)) ≤ 0) ∧
    (∀ j, j < 6 → key_cmp (slot_key nan_descr (mixed_run j))
      (slot_key nan_descr (mixed_run (argmax nan_descr mixed_run 6))) ≤ 0) :=
  have hok : ∀ i, i < 6 → ∀ j, j < 6 →
      (compare (mixed_run i) (mixed_run j) nan_descr).err = none := by decide
  have h := (argmax_argmin_spec nan_descr mixed_run 6 (by decide)
    (fun i j hi hj _ => hok i hi j hj)).2 (by decide)
  ⟨by decide, by decide, h.1.2.1, h.2.2.1⟩

/-! ## Sentinel equality -/

/-- C17. When no exception is pending on entry, `na_eq_cmp` never returns the
error value `-1`: it returns `1` or `0`, and `1` exactly when the values are
sentinel-equal in the specification's sense (identical references; else two
floats that are both NaN; else the generic equality test, its failure counting
as not equal). Hence `setitem` never stops at the null classification: it always
goes on to acquire the arena. -/
theorem na_eq_cmp_total (rt : PyRuntime) (a b : Option PyObject)
    (herr : rt.PyErr_Occurred = false) :
    na_eq_cmp rt a b = (if na_eq_spec rt a b then 1 else 0) ∧
    na_eq_cmp rt a b ≠ -1 ∧
    (∀ (d : PyArray_StringDTypeObject) (obj : PyObject) (slot : npy_packed_static_string),
      Event.acquire_allocator d.allocator ∈ (stringdtype_setitem rt d obj slot).trace) := by
  have hgen : ∀ g : Option Bool,
      (match g with
        | none => (0 : Int)
        | some ret => if ret then 1 else 0) =
      if (match g with
        | some true => true
        | _ => false) = true then 1 else 0 := by
    intro g
    rcases g with _ | (_ | _) <;> rfl
  have hspec : ∀ a b : Option PyObject,
      na_eq_cmp rt a b = (if na_eq_spec rt a b then 1 else 0) := by
    intro a b
    unfold na_eq_cmp na_eq_spec
    by_cases hab : a = b
    · simp [hab]
    · simp only [hab, if_false]
      cases a with
      | none => cases b <;> simp
      | some x =>
        cases b with
        | none => simp
        | some y =>
          simp only [herr, Bool.false_eq_true, and_false, if_false]
          by_cases hfx : rt.PyFloat_Check x = true <;>
            by_cases hfy : rt.PyFloat_Check y = true <;>
            by_cases hnx : npy_isnan (rt.PyFloat_AsDouble x) = true <;>
            by_cases hny : npy_isnan (rt.PyFloat_AsDouble y) = true <;>
            simp only [hfx, hfy, hnx, hny, Bool.and_self, Bool.and_true, Bool.and_false,
              Bool.true_and, Bool.false_and, if_true, if_false, Bool.false_eq_true] <;>
            first | rfl | exact hgen _
  have hne : ∀ a b : Option PyObject, na_eq_cmp rt a b ≠ -1 := by
    intro a b
    rw [hspec a b]
    split <;> decide
  refine ⟨hspec a b, hne a b, ?_⟩
  intro d obj slot
  unfold stringdtype_setitem
  have h1 : ¬ (d.na_object ≠ none ∧
      (if d.na_object ≠ none then na_eq_cmp rt (some obj) d.na_object else 0) = -1) := by
    intro h
    have h2 := h.2
    rw [if_pos h.1] at h2
    exact hne _ _ h2
  simp only [h1, if_false]
  repeat' split
  all_goals simp

/-- Witness for C17 on the example heap: two different NaN objects are
sentinel-equal, `nan` and `3.5` are not, and comparing with the `pandas.NA`-like
object, whose equality test fails, gives "not equal" rather than an error. -/
theorem na_eq_cmp_total_witness :
    na_eq_cmp demo_rt (some ⟨20⟩) (some ⟨22⟩) = 1 ∧
    na_eq_cmp demo_rt (some ⟨20⟩) (some ⟨21⟩) = 0 ∧
    na_eq_cmp demo_rt (some ⟨11⟩) (some ⟨31⟩) = 0 ∧
    na_eq_cmp demo_rt (some ⟨11⟩) (some ⟨31⟩) ≠ -1 :=
  ⟨by decide, by decide, by decide,
    (na_eq_cmp_total demo_rt (some ⟨11⟩) (some ⟨31⟩) (by decide)).2.1⟩


/-! ## Copy helpers -/

/-- C21 fails as stated: on the example heap with an exhausted arena, where a
released slot reads as the empty string, `free_and_copy` of a 20-byte text over
a slot holding another 20-byte text fails with "Failed to allocate string" and
leaves the slot released, not holding its prior value; `load_new_string` of 20
bytes on the same slot does the same. -/
theorem free_and_copy_failure_counterexample :
    long_text_a.length = 20 ∧ long_text_b.length = 20 ∧
    (free_and_copy demo_rt_arena_full (.str long_text_b) (.str long_text_a) "copy").ret =
      -1 ∧
    (free_and_copy demo_rt_arena_full (.str long_text_b) (.str long_text_a) "copy").err =
      some (.MemoryError "Failed to allocate string in copy") ∧
    (free_and_copy demo_rt_arena_full (.str long_text_b) (.str long_text_a) "copy").out ≠
      .str long_text_a ∧
    (load_new_string demo_rt_arena_full (.str long_text_a) 20 "load").ret = -1 ∧
    (load_new_string demo_rt_arena_full (.str long_text_a) 20 "load").out ≠
      .str long_text_a := by
  decide

/-- C21, amended. When `free_and_copy` or `load_new_string` succeeds, the `out`
slot holds the complete new value (the value of `in`, or a string of `num_bytes`
bytes that is also what `out_ss` shows). When it fails, the `out` slot holds
either its prior value, the release of the old string having failed, or what the
arena left in the slot when it released the old string, the allocation having
failed afterwards; the exception tells which. It never holds part of the new
value. This holds for every arena, whatever a released slot holds. -/
theorem free_and_copy_load_new_string_spec (rt : PyRuntime)
    (in_ out : npy_packed_static_string) (num_bytes : Nat) (location : String) :
    ((free_and_copy rt in_ out location).ret = 0 ∧
        (free_and_copy rt in_ out location).out = in_ ∧
        (free_and_copy rt in_ out location).err = none ∨
      (free_and_copy rt in_ out location).ret = -1 ∧
        (free_and_copy rt in_ out location).out = out ∧
        (free_and_copy rt in_ out location).err =
          some (.MemoryError ("Failed to deallocate string in " ++ location)) ∨
      (free_and_copy rt in_ out location).ret = -1 ∧
        (free_and_copy rt in_ out location).out = rt.released_slot out ∧
        (free_and_copy rt in_ out location).err =
          some (.MemoryError ("Failed to allocate string in " ++ location))) ∧
    ((load_new_string rt out num_bytes location).ret = 0 ∧
        (load_new_string rt out num_bytes location).out =
          .str (List.replicate num_bytes 0) ∧
        (load_new_string rt out num_bytes location).out_ss = List.replicate num_bytes 0 ∧
        (load_new_string rt out num_bytes location).err = none ∨
      (load_new_string rt out num_bytes location).ret = -1 ∧
        (load_new_string rt out num_bytes location).out = out ∧
        (load_new_string rt out num_bytes location).err =
          some (.MemoryError ("Failed to deallocate string in " ++ location)) ∨
      (load_new_string rt out num_bytes location).ret = -1 ∧
        (load_new_string rt out num_bytes location).out = rt.released_slot out ∧
        (load_new_string rt out num_bytes location).err =
          some (.MemoryError ("Failed to allocate string in " ++ location))) := by
  have hcopy : ∀ o1 : npy_packed_static_string,
      (¬ (NpyString_dup rt in_ o1).1 < 0 ∧ (NpyString_dup rt in_ o1).2 = in_) ∨
      ((NpyString_dup rt in_ o1).1 < 0 ∧ (NpyString_dup rt in_ o1).2 = o1) := by
    intro o1
    cases in_ with
    | corrupt => simp [NpyString_dup]
    | null => cases o1 <;> simp [NpyString_dup, NpyString_pack_null]
    | str b =>
      by_cases ha : rt.arena_alloc_ok b.length = true <;>
        cases o1 <;> simp [NpyString_dup, NpyString_pack, ha]
  have hnew : ∀ o1 : npy_packed_static_string,
      (¬ (NpyString_newemptysize rt num_bytes o1).1 < 0 ∧
        (NpyString_newemptysize rt num_bytes o1).2 = .str (List.replicate num_bytes 0)) ∨
      ((NpyString_newemptysize rt num_bytes o1).1 < 0 ∧
        (NpyString_newemptysize rt num_bytes o1).2 = o1) := by
    intro o1
    by_cases ha : rt.arena_alloc_ok num_bytes = true <;>
      cases o1 <;> simp [NpyString_newemptysize, ha]
  have hfree : ∀ o : npy_packed_static_string, o ≠ .corrupt →
      NpyString_free rt o = (0, rt.released_slot o) := by
    intro o ho
    cases o with
    | corrupt => exact absurd rfl ho
    | null => rfl
    | str s => rfl
  constructor
  · by_cases hc : out = .corrupt
    · subst hc
      simp [free_and_copy, NpyString_free]
    · simp only [free_and_copy, hfree out hc]
      rcases hcopy (rt.released_slot out) with ⟨h1, h2⟩ | ⟨h1, h2⟩
      · left
        simp [h1, h2]
      · right
        right
        simp [h1, h2]
  · by_cases hc : out = .corrupt
    · subst hc
      simp [load_new_string, NpyString_free]
    · simp only [load_new_string, hfree out hc]
      rcases hnew (rt.released_slot out) with ⟨h1, h2⟩ | ⟨h1, h2⟩
      · left
        simp [h1, h2, NpyString_load]
      · right
        right
        simp [h1, h2]

/-- The amended C21 at concrete inputs on the example heap: with room in the arena
the copy of one 20-byte text over another succeeds and the slot holds the new
text; over a record that cannot be decoded it fails and the record is left as it
was. -/
theorem free_and_copy_load_new_string_spec_witness :
    (free_and_copy demo_rt (.str long_text_b) (.str long_text_a) "copy").out =
      .str long_text_b ∧
    (free_and_copy demo_rt (.str long_text_b) .corrupt "copy").out = .corrupt :=
  have h := (free_and_copy_load_new_string_spec demo_rt (.str long_text_b)
    (.str long_text_a) 0 "copy").1
  have h2 := (free_and_copy_load_new_string_spec demo_rt (.str long_text_b) .corrupt 0
    "copy").1
  ⟨by
      rcases h with h | h | h
      · exact h.2.1
      · exact absurd h.1 (by decide)
      · exact absurd h.1 (by decide),
    by
      rcases h2 with h | h | h
      · exact absurd h.1 (by decide)
      · exact h.2.1
      · exact absurd h.2.2 (by decide)⟩

/-! ## Locking protocol -/

/-- The shape of every trace of `stringdtype_setitem`: the sentinel-equality call
(made only when there is a sentinel), then either nothing more (the call reported
an error), or one acquire, at most two of the steps pack-null, `PyObject_Str`, pack,
and one release. A null marker is packed exactly when the call reported equality. -/
theorem stringdtype_setitem_trace (rt : PyRuntime) (d : PyArray_StringDTypeObject)
    (obj : PyObject) (slot : npy_packed_static_string) :
    (d.na_object ≠ none ∧ na_eq_cmp rt (some obj) d.na_object = -1 ∧
      (stringdtype_setitem rt d obj slot).trace = [Event.na_eq_cmp]) ∨
    ∃ mid, (stringdtype_setitem rt d obj slot).trace =
        (if d.na_object ≠ none then [Event.na_eq_cmp] else []) ++
          Event.acquire_allocator d.allocator ::
            (mid ++ [Event.release_allocator d.allocator]) ∧
      ((d.na_object ≠ none ∧ na_eq_cmp rt (some obj) d.na_object ≠ 0 ∧
          na_eq_cmp rt (some obj) d.na_object ≠ -1 ∧ mid = [Event.NpyString_pack_null]) ∨
        (¬ (d.na_object ≠ none ∧ na_eq_cmp rt (some obj) d.na_object ≠ 0) ∧
          (mid = [] ∨ mid = [Event.PyObject_Str] ∨ mid = [Event.NpyString_pack] ∨
            mid = [Event.PyObject_Str, Event.NpyString_pack]))) := by
  by_cases hn : d.na_object = none
  · refine Or.inr ?_
    simp only [stringdtype_setitem, hn, ne_eq, not_true_eq_false, false_and, if_false,
      List.nil_append, as_pystring]
    by_cases hx : rt.is_exact_unicode obj = true
    · simp only [hx, if_true]
      cases hu : rt.PyUnicode_AsUTF8AndSize obj with
      | none => exact ⟨[], by simp, Or.inr ⟨by simp, Or.inl rfl⟩⟩
      | some val =>
        refine ⟨[Event.NpyString_pack], ?_, Or.inr ⟨by simp, Or.inr (Or.inr (Or.inl rfl))⟩⟩
        simp only
        split <;> simp
    · simp only [hx, Bool.false_eq_true, if_false]
      by_cases hc : d.coerce = 0
      · simp only [hc, if_true]
        exact ⟨[], by simp, Or.inr ⟨by simp, Or.inl rfl⟩⟩
      · simp only [hc, if_false]
        cases hs : rt.PyObject_Str obj with
        | none => exact ⟨[Event.PyObject_Str], by simp, Or.inr ⟨by simp, Or.inr (Or.inl rfl)⟩⟩
        | some s =>
          simp only
          cases hu : rt.PyUnicode_AsUTF8AndSize s with
          | none =>
            exact ⟨[Event.PyObject_Str], by simp, Or.inr ⟨by simp, Or.inr (Or.inl rfl)⟩⟩
          | some val =>
            refine ⟨[Event.PyObject_Str, Event.NpyString_pack], ?_,
              Or.inr ⟨by simp, Or.inr (Or.inr (Or.inr rfl))⟩⟩
            simp only
            split <;> simp
  · by_cases hm : na_eq_cmp rt (some obj) d.na_object = -1
    · refine Or.inl ⟨hn, hm, ?_⟩
      simp [stringdtype_setitem, hn, hm]
    · refine Or.inr ?_
      by_cases h0 : na_eq_cmp rt (some obj) d.na_object = 0
      · simp only [stringdtype_setitem, hn, ne_eq, not_false_eq_true, true_and, if_true, h0,
          as_pystring]
        simp only [show ¬ ((0 : Int) = -1) by decide, if_false, not_true_eq_false]
        by_cases hx : rt.is_exact_unicode obj = true
        · simp only [hx, if_true]
          cases hu : rt.PyUnicode_AsUTF8AndSize obj with
          | none => exact ⟨[], by simp, Or.inr ⟨by simp, Or.inl rfl⟩⟩
          | some val =>
            refine ⟨[Event.NpyString_pack], ?_,
              Or.inr ⟨by simp, Or.inr (Or.inr (Or.inl rfl))⟩⟩
            simp only
            split <;> simp
        · simp only [hx, Bool.false_eq_true, if_false]
          by_cases hc : d.coerce = 0
          · simp only [hc, if_true]
            exact ⟨[], by simp, Or.inr ⟨by simp, Or.inl rfl⟩⟩
          · simp only [hc, if_false]
            cases hs : rt.PyObject_Str obj with
            | none =>
              exact ⟨[Event.PyObject_Str], by simp, Or.inr ⟨by simp, Or.inr (Or.inl rfl)⟩⟩
            | some s =>
              simp only
              cases hu : rt.PyUnicode_AsUTF8AndSize s with
              | none =>
                exact ⟨[Event.PyObject_Str], by simp,
                  Or.inr ⟨by simp, Or.inr (Or.inl rfl)⟩⟩
              | some val =>
                refine ⟨[Event.PyObject_Str, Event.NpyString_pack], ?_,
                  Or.inr ⟨by simp, Or.inr (Or.inr (Or.inr rfl))⟩⟩
                simp only
                split <;> simp
      · refine ⟨[Event.NpyString_pack_null], ?_, Or.inl ⟨hn, h0, hm, rfl⟩⟩
        simp only [stringdtype_setitem, hn, ne_eq, not_false_eq_true, true_and, if_true, hm,
          h0, if_false]
        split <;> simp

/-- C22. In every execution of `stringdtype_setitem` the sentinel-equality check
runs at most once, and never at or after the point where the arena lock is
acquired: whatever follows an acquire in the trace contains no such check. The
result of that one check decides what happens under the lock: a null marker is
packed exactly when there is a sentinel and the check reported equality. -/
theorem setitem_na_eq_before_lock (rt : PyRuntime) (d : PyArray_StringDTypeObject)
    (obj : PyObject) (slot : npy_packed_static_string) :
    (stringdtype_setitem rt d obj slot).trace.count Event.na_eq_cmp ≤ 1 ∧
    (∀ pre post a, (stringdtype_setitem rt d obj slot).trace =
        pre ++ Event.acquire_allocator a :: post → Event.na_eq_cmp ∉ post) ∧
    (Event.NpyString_pack_null ∈ (stringdtype_setitem rt d obj slot).trace ↔
      d.na_object ≠ none ∧ na_eq_cmp rt (some obj) d.na_object = 1) := by
  have hone : ∀ x : Int, x ≠ 0 → x ≠ -1 → (x = 1 ∨ x = 0 ∨ x = -1) → x = 1 := by
    intro x h0 h1 h
    rcases h with h | h | h
    · exact h
    · exact absurd h h0
    · exact absurd h h1
  have hshape := stringdtype_setitem_trace rt d obj slot
  have hcount : (stringdtype_setitem rt d obj slot).trace.count Event.na_eq_cmp ≤ 1 ∧
      ((stringdtype_setitem rt d obj slot).trace.count Event.na_eq_cmp = 1 →
        (stringdtype_setitem rt d obj slot).trace.head? = some Event.na_eq_cmp) := by
    rcases hshape with ⟨_, _, ht⟩ | ⟨mid, ht, hmid⟩
    · rw [ht]
      simp
    · rw [ht]
      have hm : mid.count Event.na_eq_cmp = 0 := by
        rcases hmid with ⟨_, _, _, h⟩ | ⟨_, h | h | h | h⟩ <;> subst h <;> decide
      by_cases hn : d.na_object = none
      · simp [hn, List.count_cons, List.count_append, hm]
      · simp [hn, List.count_cons, List.count_append, hm]
  refine ⟨hcount.1, ?_, ?_⟩
  · intro pre post a hdec hmem
    have hc1 : (pre ++ Event.acquire_allocator a :: post).count Event.na_eq_cmp ≤ 1 := by
      rw [← hdec]
      exact hcount.1
    have hpost : 1 ≤ post.count Event.na_eq_cmp := List.count_pos_iff.2 hmem
    have hsplit : (pre ++ Event.acquire_allocator a :: post).count Event.na_eq_cmp =
        pre.count Event.na_eq_cmp + post.count Event.na_eq_cmp := by
      simp [List.count_append, List.count_cons]
    have hpre : pre.count Event.na_eq_cmp = 0 := by omega
    have htot : (stringdtype_setitem rt d obj slot).trace.count Event.na_eq_cmp = 1 := by
      rw [hdec]
      omega
    have hhead := hcount.2 htot
    rw [hdec] at hhead
    cases pre with
    | nil => simp at hhead
    | cons x xs =>
      simp only [List.cons_append, List.head?_cons, Option.some.injEq] at hhead
      subst hhead
      simp at hpre
  · rcases hshape with ⟨hn, hm, ht⟩ | ⟨mid, ht, hmid⟩
    · rw [ht]
      constructor
      · intro h
        simp at h
      · intro h
        rw [hm] at h
        exact absurd h.2 (by decide)
    · rw [ht]
      rcases hmid with ⟨hn, h0, hm1, h⟩ | ⟨hnot, h⟩
      · subst h
        constructor
        · intro _
          exact ⟨hn, hone _ h0 hm1 (na_eq_cmp_range rt _ _)⟩
        · intro _
          simp
      · constructor
        · intro hmem
          exfalso
          rcases h with h | h | h | h <;> subst h <;>
            by_cases hn : d.na_object = none <;> simp [hn] at hmem
        · intro h
          exact absurd ⟨h.1, by rw [h.2]; decide⟩ hnot

/-- C23, the code at the failing inputs on the example heap. Storing the float
`3.5` through `StringDType()` succeeds, and `PyObject_Str` runs after the arena
lock is acquired and before it is released. Storing it through
`StringDType(coerce=False)` fails with the `ValueError` after acquiring (and then
releasing) the lock. -/
theorem setitem_converts_under_lock :
    (stringdtype_setitem demo_rt plain_descr ⟨21⟩ .null).ret = 0 ∧
    (stringdtype_setitem demo_rt plain_descr ⟨21⟩ .null).slot = .str [51, 46, 53] ∧
    (stringdtype_setitem demo_rt plain_descr ⟨21⟩ .null).trace =
      [Event.acquire_allocator 1, Event.PyObject_Str, Event.NpyString_pack,
        Event.release_allocator 1] ∧
    (stringdtype_setitem demo_rt strict_descr ⟨21⟩ .null).ret = -1 ∧
    (stringdtype_setitem demo_rt strict_descr ⟨21⟩ .null).err = some (.ValueError
      "StringDType only allows string data when string coercion is disabled.") ∧
    (stringdtype_setitem demo_rt strict_descr ⟨21⟩ .null).trace =
      [Event.acquire_allocator 1, Event.release_allocator 1] := by
  decide

/-- The release loop of `stringdtype_clear_loop` performs no lock action. -/
theorem clear_loop_body_lock_events (rt : PyRuntime)
    (data : List npy_packed_static_string) :
    lock_events (clear_loop_body rt data).2.2 = [] := by
  induction data with
  | nil => rfl
  | cons s rest ih =>
    unfold clear_loop_body
    cases s
    · simpa [NpyString_free, lock_events] using ih
    · simpa [NpyString_free, lock_events] using ih
    · simp [NpyString_free, lock_events]

/-- C24. On every path through `stringdtype_setitem`, `stringdtype_getitem`,
`compare` and `stringdtype_clear_loop` the lock actions are either none at all
(only `setitem`, when the sentinel-equality check reports an error) or exactly
one acquire of the descriptor's arena followed by one release of it: the lock is
taken at most once, never while held, and is released as often as it was taken. -/
theorem lock_bracketing (rt : PyRuntime) (d : PyArray_StringDTypeObject)
    (obj : PyObject) (slot a b : npy_packed_static_string)
    (data : List npy_packed_static_string) :
    (lock_events (stringdtype_setitem rt d obj slot).trace = [] ∨
      lock_events (stringdtype_setitem rt d obj slot).trace =
        [Event.acquire_allocator d.allocator, Event.release_allocator d.allocator]) ∧
    lock_events (stringdtype_getitem rt d slot).trace =
      [Event.acquire_allocator d.allocator, Event.release_allocator d.allocator] ∧
    lock_events (compare a b d).trace =
      [Event.acquire_allocator d.allocator, Event.release_allocator d.allocator] ∧
    lock_events (stringdtype_clear_loop rt d data).trace =
      [Event.acquire_allocator d.allocator, Event.release_allocator d.allocator] := by
  refine ⟨?_, ?_, ?_, ?_⟩
  · rcases stringdtype_setitem_trace rt d obj slot with ⟨_, _, ht⟩ | ⟨mid, ht, hmid⟩
    · left
      rw [ht]
      rfl
    · right
      rw [ht]
      have hm : lock_events mid = [] := by
        rcases hmid with ⟨_, _, _, h⟩ | ⟨_, h | h | h | h⟩ <;> subst h <;> rfl
      have happ : ∀ l1 l2 : List Event,
          lock_events (l1 ++ l2) = lock_events l1 ++ lock_events l2 := by
        intro l1 l2
        simp [lock_events]
      by_cases hn : d.na_object = none
      · simp only [hn, ne_eq, not_true_eq_false, if_false, List.nil_append]
        rw [show Event.acquire_allocator d.allocator ::
            (mid ++ [Event.release_allocator d.allocator]) =
            [Event.acquire_allocator d.allocator] ++
              (mid ++ [Event.release_allocator d.allocator]) from rfl,
          happ, happ, hm]
        simp [lock_events]
      · simp only [hn, ne_eq, not_false_eq_true, if_true]
        rw [show Event.acquire_allocator d.allocator ::
            (mid ++ [Event.release_allocator d.allocator]) =
            [Event.acquire_allocator d.allocator] ++
              (mid ++ [Event.release_allocator d.allocator]) from rfl,
          happ, happ, happ, hm]
        simp [lock_events]
  · unfold stringdtype_getitem
    cases slot with
    | null => cases hn : d.na_object <;> simp [NpyString_load, hn, lock_events]
    | corrupt => simp [NpyString_load, lock_events]
    | str s =>
      cases hu : PyUnicode_FromStringAndSize rt s <;>
        simp [NpyString_load, hu, lock_events]
  · obtain ⟨na, co, hnan, hstr, ao, ds, nn, al⟩ := d
    cases na <;> cases hnan <;> cases hstr <;> cases a <;> cases b <;>
      simp [compare, _compare, NpyString_load, lock_events]
  · have hb := clear_loop_body_lock_events rt data
    have happ : ∀ l1 l2 : List Event,
        lock_events (l1 ++ l2) = lock_events l1 ++ lock_events l2 := by
      intro l1 l2
      simp [lock_events]
    unfold stringdtype_clear_loop
    cases hcb : clear_loop_body rt data with
    | mk failed rest =>
      obtain ⟨data1, t⟩ := rest
      rw [hcb] at hb
      simp only at hb
      cases failed <;> simp only [Bool.false_eq_true, if_false, if_true] <;>
        rw [happ, happ, hb] <;> simp [lock_events]

/-! ## NA classification -/

/-- C25. For every constructed descriptor: `has_string_na` and `has_nan_na` are
never both set and each needs a sentinel; `has_string_na` is set exactly when the
sentinel is a text (`PyUnicode_Check`); `has_nan_na` is set exactly when there is
a sentinel that is not a text and whose `!=` with itself is truthy or has no
truth value. -/
theorem constructed_na_classification (rt : PyRuntime) (na_object : Option PyObject)
    (coerce : Int) (allocator : Option Nat) (d : PyArray_StringDTypeObject)
    (h : (new_stringdtype_instance rt na_object coerce allocator).ret = some d) :
    ¬ (d.has_string_na = true ∧ d.has_nan_na = true) ∧
    (d.has_string_na = true → d.na_object ≠ none) ∧
    (d.has_nan_na = true → d.na_object ≠ none) ∧
    (d.has_string_na = true ↔
      ∃ na, d.na_object = some na ∧ rt.PyUnicode_Check na = true) ∧
    (d.has_nan_na = true ↔
      ∃ na, d.na_object = some na ∧ rt.PyUnicode_Check na = false ∧
        (rt.ne_self na = some (some true) ∨ rt.ne_self na = some none)) := by
  unfold new_stringdtype_instance at h
  split at h
  · simp at h
  · dsimp only at h
    split at h
    · simp [new_stringdtype_instance_fail] at h
    · split at h
      · simp at h; subst h; simp
      · rename_i na
        split at h
        · simp [new_stringdtype_instance_fail] at h
        · rename_i hn hs ds hcl
          split at h
          · simp [new_stringdtype_instance_fail] at h
          · simp at h
            subst h
            simp only [Option.some.injEq, ne_eq, reduceCtorEq, not_false_eq_true,
              implies_true, true_and, exists_eq_left']
            unfold classify_na_object at hcl
            by_cases hu : rt.PyUnicode_Check na = true
            · simp only [hu, if_true] at hcl
              split at hcl
              · simp at hcl
              · split at hcl
                · simp at hcl
                  obtain ⟨h1, h2, _⟩ := hcl
                  subst h1 h2
                  simp [hu]
                · simp at hcl
            · have hu2 : rt.PyUnicode_Check na = false := by simpa using hu
              simp only [hu2, Bool.false_eq_true, if_false] at hcl
              split at hcl
              · simp at hcl
              · rename_i t ht
                split at hcl <;> simp at hcl <;> obtain ⟨h1, h2, _⟩ := hcl <;>
                  subst h1 h2 <;> simp [hu2, ht]

/-- Witness for C25: the sentinels `nan`, `"NA"` and `None` on the example heap. -/
theorem constructed_na_classification_witness :
    (nan_descr.has_nan_na = true ↔
      ∃ na, nan_descr.na_object = some na ∧ demo_rt.PyUnicode_Check na = false ∧
        (demo_rt.ne_self na = some (some true) ∨ demo_rt.ne_self na = some none)) ∧
    nan_descr.has_nan_na = true ∧ NA_descr.has_string_na = true ∧
    none_descr.has_nan_na = false ∧ none_descr.has_string_na = false :=
  ⟨(constructed_na_classification demo_rt (some ⟨20⟩) 1 none nan_descr (by decide)).2.2.2.2,
    rfl, rfl, rfl, rfl⟩

end StringDType
